import Mathlib

/-!
Shallow embedding of the run-orchestrator core of the zapply repository:
`app/services/scraper_service.py` together with the run-creating endpoint
`run_scraper` of `app/routers/scraper.py`.

Database tables are lists of records, the PostgreSQL advisory lock is a
holder field, timestamps are integers (minutes), and the external
collaborators (the source adapters behind `ScraperRegistry`, and the
matching stage `match_jobs`) are parameters of the embedding.  The
fan-out of per-source scrape tasks (`asyncio.gather`) is modelled as
sequential execution in source order, which is the order `gather`
returns results in; each task only touches its own SourceRun row plus
the shared run row, so none of the properties proved below depend on
task interleaving.  Session semantics are modelled faithfully: the
sessions are created with `expire_on_commit=False`, so the orchestrator
keeps its own in-memory copy of the Run row, and each of its commits
writes that whole copy (including the `logs` JSON array) back to the
table, while every scrape task re-reads the row in its own session.
-/

namespace Zapply

/-- `RunStatus` enum of `app/models.py` (statuses are stored as strings). -/
def RunStatus.RUNNING : String := "running"

def RunStatus.COMPLETED : String := "completed"

def RunStatus.FAILED : String := "failed"

def RunStatus.PARTIAL : String := "partial"

/-- `RunPhase` enum of `app/models.py`. -/
def RunPhase.SCRAPING : String := "scraping"

def RunPhase.MATCHING : String := "matching"

/-- `SourceRunStatus` values (see the `source_runs` migration and
`scraper_service.py`). -/
def SourceRunStatus.RUNNING : String := "running"

def SourceRunStatus.COMPLETED : String := "completed"

def SourceRunStatus.FAILED : String := "failed"

def RunTriggerType.MANUAL : String := "manual"

/-- One `{timestamp, level, message}` record of a JSON `logs` array. -/
structure LogEntry where
  timestamp : Int
  level : String
  message : String
deriving DecidableEq, Repr

/-- A row of the `jobs` table (the columns the orchestrator reads or
writes; `resolved_url` is the nullable cross-source identity column). -/
structure Job where
  source : String
  source_id : String
  url : String
  resolved_url : Option String
  title : String
  company : String
  description : String
deriving DecidableEq, Repr

/-- One element of the `jobs_data` list a source adapter returns: a
Python dict, so every key may be absent.  `job_data.get(k)` is the
field itself; `job_data[k]` raises `KeyError` when the field is
`none`. -/
structure JobData where
  source : Option String
  source_id : Option String
  url : Option String
  resolved_url : Option String
  title : Option String
  company : Option String
  description : Option String
deriving DecidableEq, Repr

/-- Aggregate stats carried in `Run.stats` (the JSON map written at the
end of `_execute_scraping`; the matcher fields are only present when
the matching phase ran). -/
structure RunStats where
  jobs_scraped : Nat
  new_jobs : Nat
  duplicate_jobs : Nat
  failed_jobs : Nat
  jobs_matched : Option Nat
  jobs_rejected : Option Nat
  matching_errors : Option Nat
  average_match_score : Option Nat
  sources_run : Nat
  sources_failed : Nat
  sources : List String
deriving DecidableEq, Repr

/-- A row of the `runs` table. -/
structure Run where
  id : Nat
  status : String
  phase : String
  trigger_type : String
  stats : Option RunStats
  logs : List LogEntry
  error_message : Option String
  started_at : Int
  completed_at : Option Int
  duration_seconds : Option Int
deriving DecidableEq, Repr

/-- A row of the `source_runs` table. -/
structure SourceRun where
  id : Nat
  run_id : Nat
  source_name : String
  status : String
  jobs_found : Nat
  jobs_new : Nat
  jobs_duplicate : Nat
  jobs_failed : Nat
  error_message : Option String
  logs : List LogEntry
  started_at : Int
  completed_at : Option Int
  duration_seconds : Option Int
deriving DecidableEq, Repr

/-- A row of the `scraper_sources` table (the columns the orchestrator
uses; credentials and per-source settings are only forwarded to the
external adapter, which the embedding keeps as a parameter). -/
structure ScraperSource where
  name : String
  label : String
  enabled : Bool
  priority : Nat
deriving DecidableEq, Repr

/-- The relational store: the tables touched by the orchestrator, the
presence of a `UserProfile` row, and the `app_settings` key-value
store. -/
structure DB where
  jobs : List Job
  runs : List Run
  source_runs : List SourceRun
  sources : List ScraperSource
  hasProfile : Bool
  app_settings : List (String × String)
deriving DecidableEq, Repr

/-- Outcome of a Python call: a value, or an exception message. -/
inductive PyRes (α : Type) where
  | ok (val : α)
  | raised (msg : String)
deriving DecidableEq, Repr

/-- `STALE_RUN_TIMEOUT_MINUTES` of `scraper_service.py`. -/
def STALE_RUN_TIMEOUT_MINUTES : Int := 30

/-- The error message `cleanup_stale_runs` writes on each stale run. -/
def staleRunErrorMessage : String :=
  "Run exceeded 30 minute timeout - marked as failed automatically"

/-- `get_setting`: look the key up in `app_settings`, defaulting. -/
def get_setting (db : DB) (key : String) (default : String) : String :=
  match db.app_settings.lookup key with
  | some v => v
  | none => default

/-- `add_log`: append a `{timestamp, level, message}` record to the run
object held by the calling session. -/
def add_log (now : Int) (run : Run) (message : String) (level : String) : Run :=
  { run with logs := run.logs ++ [⟨now, level, message⟩] }

/-- `add_source_log`: same, on a SourceRun object. -/
def add_source_log (now : Int) (sr : SourceRun) (message : String) (level : String) :
    SourceRun :=
  { sr with logs := sr.logs ++ [⟨now, level, message⟩] }

/-- Committing the orchestrator session with its run object dirty:
the whole object (including its `logs` array) is written over the row
with the same id. -/
def commitRun (db : DB) (run : Run) : DB :=
  { db with runs := db.runs.map (fun r => if r.id = run.id then run else r) }

/-- A scrape task session appending a log entry directly to the run
row it re-read (`select(Run).where(Run.id == run_id)` plus `add_log`
plus commit). -/
def addRunLogInDb (db : DB) (run_id : Nat) (message : String) (level : String)
    (now : Int) : DB :=
  { db with runs := db.runs.map (fun r =>
      if r.id = run_id then add_log now r message level else r) }

/-- Rewrite the SourceRun row with the given id through `f`. -/
def updateSourceRun (db : DB) (srid : Nat) (f : SourceRun → SourceRun) : DB :=
  { db with source_runs := db.source_runs.map (fun sr =>
      if sr.id = srid then f sr else sr) }

/-- `update(Run).where(status == running).where(started_at < cutoff)`:
the per-row transformation of `cleanup_stale_runs`. -/
def reapRun (now : Int) (r : Run) : Run :=
  if r.status = RunStatus.RUNNING ∧ r.started_at < now - STALE_RUN_TIMEOUT_MINUTES then
    { r with status := RunStatus.FAILED, completed_at := some now,
             error_message := some staleRunErrorMessage }
  else r

/-- `cleanup_stale_runs`: flip every stale running run to failed and
return how many rows matched. -/
def cleanup_stale_runs (now : Int) (db : DB) : DB × Nat :=
  ({ db with runs := db.runs.map (reapRun now) },
   (db.runs.filter (fun r =>
      r.status = RunStatus.RUNNING ∧
        r.started_at < now - STALE_RUN_TIMEOUT_MINUTES)).length)

/-- The cluster-wide advisory lock: the session id currently holding
`pg_advisory_lock(SCRAPER_LOCK_ID)`, if any. -/
structure LockState where
  holder : Option Nat
deriving DecidableEq, Repr

/-- `pg_try_advisory_lock`: non-blocking; succeeds when the lock is
free (or already held by the same session, advisory locks being
reentrant per session). -/
def pg_try_advisory_lock (sid : Nat) (l : LockState) : Bool × LockState :=
  match l.holder with
  | none => (true, { holder := some sid })
  | some h => if h = sid then (true, l) else (false, l)

/-- `release_scraper_lock` via `pg_advisory_unlock`: releases only a
lock held by the calling session. -/
def release_scraper_lock (sid : Nat) (l : LockState) : LockState :=
  if l.holder = some sid then { holder := none } else l

/-- `select id from runs where status = running limit 1` is non-empty. -/
def hasRunningRun (db : DB) : Bool :=
  db.runs.any (fun r => r.status = RunStatus.RUNNING)

/-- Environment of the stale-lock recovery path: whether
`pg_terminate_backend` on the holding session reports success, and
which session (if any) grabs the freed lock before the retry. -/
structure LockEnv where
  terminateOk : Bool
  stolenBy : Option Nat
deriving DecidableEq, Repr

/-- Trace of one `acquire_scraper_lock` call: its boolean result, the
resulting lock state, and how many `pg_try_advisory_lock` /
`pg_terminate_backend` statements it issued. -/
structure AcquireTrace where
  acquired : Bool
  lock : LockState
  tryAcquireCalls : Nat
  terminateCalls : Nat
deriving DecidableEq, Repr

/-- `acquire_scraper_lock`: try the advisory lock; on failure, perform
one stale-lock recovery attempt (only when no run row is `running`):
terminate the holding session and retry exactly once. -/
def acquire_scraper_lock (sid : Nat) (env : LockEnv) (db : DB) (l : LockState) :
    AcquireTrace :=
  let first := pg_try_advisory_lock sid l
  if first.1 then ⟨true, first.2, 1, 0⟩
  else if hasRunningRun db then ⟨false, first.2, 1, 0⟩
  else if env.terminateOk then
    let freed : LockState := { holder := env.stolenBy }
    let retry := pg_try_advisory_lock sid freed
    ⟨retry.1, retry.2, 2, 1⟩
  else ⟨false, first.2, 1, 1⟩

/-- `ScrapeResult` dataclass of `scraper_service.py`. -/
structure ScrapeResult where
  source_name : String
  source_label : String
  source_run_id : Nat
  jobs_data : List JobData
  jobs_found : Nat
  error : Option String
  success : Bool
deriving DecidableEq, Repr

/-- The external source adapters: for a source name, the outcome of
`ScraperRegistry` lookup / instantiation / `scraper.scrape(...)` — a
list of job dicts, or the message of the exception raised. -/
def AdapterEnv : Type := String → PyRes (List JobData)

/-- Aggregate counts returned by the external matching stage
`match_jobs`. -/
structure MatchStats where
  matched : Nat
  rejected : Nat
  errors : Nat
  average_score : Nat
deriving DecidableEq, Repr

/-- The external matching stage: its aggregate counts, or the message
of the exception it raises. -/
def MatchEnv : Type := PyRes MatchStats

/-- Fresh primary key for a `source_runs` insert. -/
def nextSourceRunId (db : DB) : Nat :=
  (db.source_runs.map (fun sr => sr.id)).foldr max 0 + 1

/-- Fresh primary key for a `runs` insert. -/
def nextRunId (db : DB) : Nat :=
  (db.runs.map (fun r => r.id)).foldr max 0 + 1

/-- `scrape_source_parallel`: one per-source scrape task.  It opens its
own session, inserts its SourceRun row, logs the start to its own row
and to the parent run row, and calls the external adapter.  On success
it marks its SourceRun completed with `jobs_found` set; on any
exception it catches locally, marks its SourceRun failed with the
error, logs the failure to both rows, and returns a failure-marked
`ScrapeResult` instead of propagating.  Job rows are not written here;
that is deferred to the sequential save pass. -/
def scrape_source_parallel (env : AdapterEnv) (now : Int) (db : DB) (run_id : Nat)
    (source_name source_label : String) : DB × ScrapeResult :=
  let srid := nextSourceRunId db
  let sr0 : SourceRun :=
    { id := srid, run_id := run_id, source_name := source_name,
      status := SourceRunStatus.RUNNING,
      jobs_found := 0, jobs_new := 0, jobs_duplicate := 0, jobs_failed := 0,
      error_message := none,
      logs := [⟨now, "info", "Starting scrape for " ++ source_label⟩],
      started_at := now, completed_at := none, duration_seconds := none }
  let db := { db with source_runs := db.source_runs ++ [sr0] }
  let db := addRunLogInDb db run_id ("Starting " ++ source_label ++ " scraper") "info" now
  let existing_count := (db.jobs.filter (fun j => j.source = source_name)).length
  let db := updateSourceRun db srid (fun sr =>
    add_source_log now sr ("Found " ++ toString existing_count ++ " existing jobs") "info")
  match env source_name with
  | .raised e =>
    let db := updateSourceRun db srid (fun sr =>
      add_source_log now
        { sr with status := SourceRunStatus.FAILED, error_message := some e,
                  completed_at := some now,
                  duration_seconds := some (now - sr.started_at) }
        ("Failed: " ++ e) "error")
    let db := addRunLogInDb db run_id
      ("[" ++ source_label ++ "] Failed: " ++ e) "error" now
    (db, { source_name := source_name, source_label := source_label,
           source_run_id := srid, jobs_data := [], jobs_found := 0,
           error := some e, success := false })
  | .ok jobs_data =>
    let db := updateSourceRun db srid (fun sr =>
      add_source_log now
        { sr with jobs_found := jobs_data.length,
                  status := SourceRunStatus.COMPLETED,
                  completed_at := some now,
                  duration_seconds := some (now - sr.started_at) }
        ("Scraping complete: " ++ toString jobs_data.length ++ " jobs found") "success")
    let db := addRunLogInDb db run_id
      ("[" ++ source_label ++ "] Scraping complete: " ++ toString jobs_data.length
        ++ " jobs found") "success" now
    (db, { source_name := source_name, source_label := source_label,
           source_run_id := srid, jobs_data := jobs_data,
           jobs_found := jobs_data.length, error := none, success := true })

/-- The `asyncio.gather` fan-out over the enabled sources, in source
order (the order `gather` reports results in). -/
def runScrapeTasks (env : AdapterEnv) (now : Int) (run_id : Nat) :
    DB → List ScraperSource → DB × List ScrapeResult
  | db, [] => (db, [])
  | db, s :: rest =>
    let step := scrape_source_parallel env now db run_id s.name s.label
    let tail := runScrapeTasks env now run_id step.1 rest
    (tail.1, step.2 :: tail.2)

/-- `resolved_url` values present in the store
(`select(Job.resolved_url).where(Job.resolved_url.isnot(None))`). -/
def resolvedUrls (jobs : List Job) : List String :=
  jobs.filterMap (fun j => j.resolved_url)

/-- `source_id` values of the store rows of one source
(`select(Job.source_id).filter(Job.source == name)`). -/
def sourceIdsFor (jobs : List Job) (src : String) : List String :=
  (jobs.filter (fun j => j.source = src)).map (fun j => j.source_id)

/-- The `Job(...)` constructor call of the save pass: every required
key is read with `job_data[k]`, so a missing one raises `KeyError`. -/
def buildJob (jd : JobData) : Option Job :=
  match jd.source, jd.source_id, jd.url, jd.title, jd.company, jd.description with
  | some s, some sid, some u, some t, some c, some d =>
    some { source := s, source_id := sid, url := u, resolved_url := jd.resolved_url,
           title := t, company := c, description := d }
  | _, _, _, _, _, _ => none

/-- In-memory state of the per-job loop of the save pass: the jobs
table (staged adds included), the two resolved-URL sets, the per-source
identity set, and the three counters. -/
structure SaveSt where
  jobs : List Job
  existing_resolved_urls : List String
  seen_resolved_urls : List String
  existing_source_ids : List String
  jobs_new : Nat
  jobs_duplicate : Nat
  jobs_failed : Nat
deriving DecidableEq, Repr

/-- Tail of the loop body after the dedup checks: build the Job row and
stage it, updating the in-memory sets; a `KeyError` from a missing
required key is caught by the per-job handler and counted in
`jobs_failed`. -/
def persistJob (st : SaveSt) (jd : JobData) : SaveSt :=
  match buildJob jd with
  | some job =>
    { st with
      jobs := st.jobs ++ [job],
      jobs_new := st.jobs_new + 1,
      existing_source_ids :=
        match jd.source_id with
        | some sid => sid :: st.existing_source_ids
        | none => st.existing_source_ids,
      existing_resolved_urls :=
        match jd.resolved_url with
        | some u => u :: st.existing_resolved_urls
        | none => st.existing_resolved_urls }
  | none => { st with jobs_failed := st.jobs_failed + 1 }

/-- Cross-source half of the loop body: if the candidate carries a
`resolved_url`, skip it when that URL is in the persisted set or the
in-memory set of this pass (note that the duplicate branch reads
`job_data["title"]` for its console line, so a missing title turns that
candidate into a failure, and that a fresh URL is added to
`seen_resolved_urls` before the row is built). -/
def crossCheckAndPersist (st : SaveSt) (jd : JobData) : SaveSt :=
  match jd.resolved_url with
  | some u =>
    if u ∈ st.existing_resolved_urls ∨ u ∈ st.seen_resolved_urls then
      match jd.title with
      | some _ => { st with jobs_duplicate := st.jobs_duplicate + 1 }
      | none => { st with jobs_failed := st.jobs_failed + 1 }
    else
      persistJob { st with seen_resolved_urls := u :: st.seen_resolved_urls } jd
  | none => persistJob st jd

/-- One iteration of the per-job loop of
`save_jobs_and_finalize_source_runs`: the same-source identity check
(`None` from `job_data.get` is never in a set of strings), then the
cross-source check and persist. -/
def saveOneJob (st : SaveSt) (jd : JobData) : SaveSt :=
  match jd.source_id with
  | some sid =>
    if sid ∈ st.existing_source_ids then
      { st with jobs_duplicate := st.jobs_duplicate + 1 }
    else crossCheckAndPersist st jd
  | none => crossCheckAndPersist st jd

/-- The dict returned by `save_jobs_and_finalize_source_runs`. -/
structure SaveStats where
  total : Nat
  new : Nat
  duplicate : Nat
  failed : Nat
deriving DecidableEq, Repr

/-- Running state of the save pass across sources: the orchestrator
session (store plus its run-object copy), the two resolved-URL sets,
and the aggregate counters. -/
structure PassAcc where
  db : DB
  run : Run
  seen_resolved_urls : List String
  existing_resolved_urls : List String
  total_new : Nat
  total_duplicate : Nat
  total_failed : Nat
  total_found : Nat
deriving DecidableEq, Repr

/-- Body of the per-source loop of `save_jobs_and_finalize_source_runs`:
skip failed sources, skip results whose SourceRun row is gone, else
load this source's identity set, run the per-job loop, stage the rows,
write the final counts onto the SourceRun, and log to both logs. -/
def processResult (now : Int) (acc : PassAcc) (r : ScrapeResult) : PassAcc :=
  if r.success then
    match acc.db.source_runs.find? (fun sr => sr.id = r.source_run_id) with
    | none => acc
    | some _ =>
      let ids := sourceIdsFor acc.db.jobs r.source_name
      let db := updateSourceRun acc.db r.source_run_id (fun sr =>
        add_source_log now sr "Saving jobs to database..." "info")
      let run := add_log now acc.run
        ("[" ++ r.source_label ++ "] Saving jobs to database...") "info"
      let db := commitRun db run
      let st0 : SaveSt :=
        { jobs := db.jobs,
          existing_resolved_urls := acc.existing_resolved_urls,
          seen_resolved_urls := acc.seen_resolved_urls,
          existing_source_ids := ids,
          jobs_new := 0, jobs_duplicate := 0, jobs_failed := 0 }
      let st := r.jobs_data.foldl saveOneJob st0
      let db := { db with jobs := st.jobs }
      let savedMsg := "Saved: " ++ toString st.jobs_new ++ " new, "
        ++ toString st.jobs_duplicate ++ " duplicates, "
        ++ toString st.jobs_failed ++ " failed"
      let db := updateSourceRun db r.source_run_id (fun sr =>
        add_source_log now
          { sr with jobs_new := st.jobs_new, jobs_duplicate := st.jobs_duplicate,
                    jobs_failed := st.jobs_failed }
          savedMsg "success")
      let run := add_log now run ("[" ++ r.source_label ++ "] " ++ savedMsg) "success"
      let db := commitRun db run
      { db := db, run := run,
        seen_resolved_urls := st.seen_resolved_urls,
        existing_resolved_urls := st.existing_resolved_urls,
        total_new := acc.total_new + st.jobs_new,
        total_duplicate := acc.total_duplicate + st.jobs_duplicate,
        total_failed := acc.total_failed + st.jobs_failed,
        total_found := acc.total_found + r.jobs_found }
  else acc

/-- `save_jobs_and_finalize_source_runs`: the single sequential
deduplication-and-save pass, run once after all scrape tasks have
completed.  The persisted resolved-URL set is loaded once before the
pass; the in-memory set starts empty and accumulates across all
sources. -/
def save_jobs_and_finalize_source_runs (now : Int) (db : DB) (run : Run)
    (scrape_results : List ScrapeResult) : DB × Run × SaveStats :=
  let acc0 : PassAcc :=
    { db := db, run := run, seen_resolved_urls := [],
      existing_resolved_urls := resolvedUrls db.jobs,
      total_new := 0, total_duplicate := 0, total_failed := 0, total_found := 0 }
  let acc := scrape_results.foldl (processResult now) acc0
  (acc.db, acc.run,
   { total := acc.total_found, new := acc.total_new,
     duplicate := acc.total_duplicate, failed := acc.total_failed })

/-- Code-point-wise string comparison (the collation used for
`ORDER BY name`), structurally recursive so that it evaluates. -/
def strLeChars : List Char → List Char → Bool
  | [], _ => true
  | _ :: _, [] => false
  | c :: cs, d :: ds =>
    if c.val.toNat < d.val.toNat then true
    else if d.val.toNat < c.val.toNat then false
    else strLeChars cs ds

def strLe (a b : String) : Bool := strLeChars a.data b.data

/-- Comparison used by `get_enabled_sources`: `order_by(priority, name)`. -/
def sourceLe (a b : ScraperSource) : Bool :=
  a.priority < b.priority || (a.priority = b.priority && strLe a.name b.name)

/-- Insert into a list sorted by `le`. -/
def insertSorted (le : ScraperSource → ScraperSource → Bool) (x : ScraperSource) :
    List ScraperSource → List ScraperSource
  | [] => [x]
  | y :: ys => if le x y then x :: y :: ys else y :: insertSorted le x ys

/-- `ORDER BY` as an insertion sort. -/
def orderSources (le : ScraperSource → ScraperSource → Bool)
    (l : List ScraperSource) : List ScraperSource :=
  l.foldr (insertSorted le) []

/-- `get_enabled_sources` of `source_service.py`: enabled sources
ordered by `(priority, name)`. -/
def get_enabled_sources (db : DB) : List ScraperSource :=
  orderSources sourceLe (db.sources.filter (fun s => s.enabled))

/-- The sources-to-scrape computation of `_execute_scraping`: a given
name list filtered to enabled rows and ordered by priority, or all
enabled sources. -/
def selectSources (db : DB) (source_names : Option (List String)) :
    List ScraperSource :=
  match source_names with
  | some names =>
    orderSources (fun a b => a.priority ≤ b.priority)
      (db.sources.filter (fun s => names.contains s.name && s.enabled))
  | none => get_enabled_sources db

/-- Decimal digit value of a character. -/
def digitVal (c : Char) : Option Nat :=
  if 48 ≤ c.val.toNat ∧ c.val.toNat ≤ 57 then some (c.val.toNat - 48) else none

def parseDigitsAux : List Char → Nat → Option Nat
  | [], acc => some acc
  | c :: rest, acc =>
    match digitVal c with
    | some d => parseDigitsAux rest (acc * 10 + d)
    | none => none

def parseDigits (l : List Char) : Option Nat :=
  if l.isEmpty then none else parseDigitsAux l 0

/-- Python `int(s)` on a plain decimal literal: the digits, optionally
signed; anything else raises `ValueError`. -/
def pyInt (s : String) : Option Int :=
  match s.data with
  | '-' :: rest => (parseDigits rest).map (fun n => -(n : Int))
  | l => (parseDigits l).map (fun n => (n : Int))

/-- The `stats` dict `_execute_scraping` returns. -/
structure Stats where
  total : Nat
  new : Nat
  existing : Nat
  failed : Nat
  sources_run : Nat
  sources_failed : Nat
deriving DecidableEq, Repr

/-- Result of one `_execute_scraping` call: the returned stats or the
re-raised exception, the final store, the orchestrator's run object,
and whether the matching collaborator was invoked. -/
structure ExecResult where
  outcome : PyRes Stats
  db : DB
  run : Run
  matcherCalled : Bool
deriving Repr

def noProfileMsg : String :=
  "No user profile found. Please create a profile before running the scraper. The profile is required for job matching."

def noSourcesMsg : String :=
  "No enabled scraper sources found. Enable at least one source in Admin settings."

/-- The `except` branch of `_execute_scraping`: mark the run failed
with the error message, stamp `completed_at`, log, commit, re-raise. -/
def failRunExec (now : Int) (db : DB) (run : Run) (e : String) (called : Bool) :
    ExecResult :=
  let run :=
    { run with status := RunStatus.FAILED, completed_at := some now,
               duration_seconds := some (now - run.started_at),
               error_message := some e }
  let run := add_log now run ("Scraping failed: " ++ e) "error"
  ⟨.raised e, commitRun db run, run, called⟩

/-- The tail of `_execute_scraping` after the matching decision:
`status = completed` when `sources_failed == 0`, else `partial`;
`completed_at` stamped; no error message written. -/
def finalizeExec (now : Int) (db : DB) (run : Run) (stats : Stats) (called : Bool) :
    ExecResult :=
  let run :=
    { run with
      status := if stats.sources_failed = 0 then RunStatus.COMPLETED
                else RunStatus.PARTIAL,
      completed_at := some now,
      duration_seconds := some (now - run.started_at) }
  let run := add_log now run "Run completed successfully!" "success"
  ⟨.ok stats, commitRun db run, run, called⟩

/-- Body of `_execute_scraping` from the parallel fan-out onward: run
the scrape tasks, the sequential save pass, the matching decision
(phase advances to `matching` and `match_jobs` runs only when at least
one new posting survived deduplication), stats write-back and
finalization; a matching failure lands in `failRunExec`. -/
def execMain (aenv : AdapterEnv) (menv : MatchEnv) (now : Int) (db : DB)
    (run : Run) (sources : List ScraperSource) : ExecResult :=
  let fanout := runScrapeTasks aenv now run.id db sources
  let results := fanout.2
  let run := add_log now run
    "All scraping complete. Saving jobs with cross-source deduplication..."
    "info"
  let db := commitRun fanout.1 run
  let saved := save_jobs_and_finalize_source_runs now db run results
  let db := saved.1
  let run := saved.2.1
  let save_stats := saved.2.2
  let sources_completed := (results.filter (fun r => r.success)).length
  let sources_failed := (results.filter (fun r => !r.success)).length
  let stats : Stats :=
    { total := save_stats.total, new := save_stats.new,
      existing := save_stats.duplicate, failed := save_stats.failed,
      sources_run := sources_completed, sources_failed := sources_failed }
  let run := add_log now run
    ("Scraping completed: " ++ toString save_stats.new ++ " new jobs from "
      ++ toString sources_completed ++ " sources") "success"
  let db := commitRun db run
  if 0 < save_stats.new then
    let run := { run with phase := RunPhase.MATCHING }
    let db := commitRun db run
    match menv with
    | .raised e => failRunExec now db run e true
    | .ok ms =>
      let rstats : RunStats :=
        { jobs_scraped := save_stats.total, new_jobs := save_stats.new,
          duplicate_jobs := save_stats.duplicate,
          failed_jobs := save_stats.failed,
          jobs_matched := some ms.matched,
          jobs_rejected := some ms.rejected,
          matching_errors := some ms.errors,
          average_match_score := some ms.average_score,
          sources_run := sources_completed,
          sources_failed := sources_failed,
          sources := sources.map (fun s => s.name) }
      let run := { run with stats := some rstats }
      let db := commitRun db run
      finalizeExec now db run stats true
  else
    let rstats : RunStats :=
      { jobs_scraped := save_stats.total, new_jobs := save_stats.new,
        duplicate_jobs := save_stats.duplicate,
        failed_jobs := save_stats.failed,
        jobs_matched := none, jobs_rejected := none,
        matching_errors := none, average_match_score := none,
        sources_run := sources_completed,
        sources_failed := sources_failed,
        sources := sources.map (fun s => s.name) }
    let run := { run with stats := some rstats }
    let db := commitRun db run
    finalizeExec now db run stats false

/-- `_execute_scraping`: precondition checks (profile, enabled
sources), the job-limit setting parse, then `execMain`; any exception
lands in `failRunExec` and is re-raised. -/
def _execute_scraping (aenv : AdapterEnv) (menv : MatchEnv) (now : Int) (db : DB)
    (run : Run) (source_names : Option (List String)) : ExecResult :=
  if db.hasProfile then
    let sources := selectSources db source_names
    if sources.isEmpty then failRunExec now db run noSourcesMsg false
    else
      let run := add_log now run
        ("Starting parallel scraping from " ++ toString sources.length
          ++ " source(s): "
          ++ String.intercalate ", " (sources.map (fun s => s.label))) "info"
      let db := commitRun db run
      match pyInt (get_setting db "scrape_job_limit" "0") with
      | none =>
        failRunExec now db run
          ("invalid literal for int() with base 10: "
            ++ get_setting db "scrape_job_limit" "0") false
      | some _job_limit => execMain aenv menv now db run sources
  else failRunExec now db run noProfileMsg false

def lockNotAcquiredMsg : String :=
  "Another scraper process is currently running (could not acquire lock). Please wait for it to complete before starting a new run."

/-- Result of one `scrape_and_save_jobs` call: the returned stats or
the raised exception, the final store, and the final lock state. -/
structure OrchResult where
  outcome : PyRes Stats
  db : DB
  lock : LockState
deriving Repr

/-- `scrape_and_save_jobs`: reap stale runs, acquire the advisory lock
(abort without creating a Run when that fails), double-check that no
run row is `running`, create the Run record, execute, and always
release the lock in the `finally` path. -/
def scrape_and_save_jobs (sid : Nat) (lenv : LockEnv) (aenv : AdapterEnv)
    (menv : MatchEnv) (now : Int) (db : DB) (lock : LockState)
    (trigger_type : String) (source_names : Option (List String)) : OrchResult :=
  let db := (cleanup_stale_runs now db).1
  let t := acquire_scraper_lock sid lenv db lock
  if t.acquired then
    match db.runs.find? (fun r => r.status = RunStatus.RUNNING) with
    | some rr =>
      ⟨.raised ("A run is already in progress (Run #" ++ toString rr.id
          ++ ", started at " ++ toString rr.started_at
          ++ "). Please wait for it to complete before starting a new run."),
       db, release_scraper_lock sid t.lock⟩
    | none =>
      let run : Run :=
        { id := nextRunId db, status := RunStatus.RUNNING,
          phase := RunPhase.SCRAPING, trigger_type := trigger_type, stats := none,
          logs := [], error_message := none, started_at := now,
          completed_at := none, duration_seconds := none }
      let db := { db with runs := db.runs ++ [run] }
      let r := _execute_scraping aenv menv now db run source_names
      ⟨r.outcome, r.db, release_scraper_lock sid t.lock⟩
  else ⟨.raised lockNotAcquiredMsg, db, t.lock⟩

/-- `scrape_and_save_jobs_with_run`: execute against a pre-created run
row (the API path; no lock, no run creation). -/
def scrape_and_save_jobs_with_run (aenv : AdapterEnv) (menv : MatchEnv) (now : Int)
    (db : DB) (run_id : Nat) (source_names : Option (List String)) :
    PyRes Stats × DB :=
  match db.runs.find? (fun r => r.id = run_id) with
  | none => (.raised ("Run #" ++ toString run_id ++ " not found"), db)
  | some run =>
    let r := _execute_scraping aenv menv now db run source_names
    (r.outcome, r.db)

/-- `run_scraper` of `app/routers/scraper.py`: the HTTP trigger checks
the profile and that no run row is `running` before creating its Run
record (the background task is started afterwards and is not part of
this handler's effect on the store). -/
def run_scraper (now : Int) (db : DB) : PyRes Nat × DB :=
  if db.hasProfile then
    match db.runs.find? (fun r => r.status = RunStatus.RUNNING) with
    | some rr =>
      (.raised ("A run is already in progress (Run #" ++ toString rr.id
          ++ "). Please wait for it to complete."), db)
    | none =>
      let new_run : Run :=
        { id := nextRunId db, status := RunStatus.RUNNING,
          phase := RunPhase.SCRAPING, trigger_type := RunTriggerType.MANUAL,
          stats := none,
          logs := [⟨now, "info", "Run created, starting scraper..."⟩],
          error_message := none, started_at := now, completed_at := none,
          duration_seconds := none }
      (.ok new_run.id, { db with runs := db.runs ++ [new_run] })
  else
    (.raised "No user profile found. Please create a profile before running the scraper.",
     db)

/-- Number of store rows carrying a given resolved URL. -/
def countUrl (jobs : List Job) (u : String) : Nat :=
  (jobs.filter (fun j => j.resolved_url = some u)).length

/-- A batch of candidates that is entirely fresh relative to the given
identity set and resolved-URL sets, stepwise: each candidate builds,
carries an identity unseen so far, and any resolved URL it carries is
unseen so far. -/
def FreshChain (ids eru seen : List String) : List JobData → Prop
  | [] => True
  | jd :: rest =>
    (buildJob jd).isSome = true ∧
    ∃ sid, jd.source_id = some sid ∧ sid ∉ ids ∧
      (match jd.resolved_url with
       | some u =>
         (u ∉ eru ∧ u ∉ seen) ∧ FreshChain (sid :: ids) (u :: eru) (u :: seen) rest
       | none => FreshChain (sid :: ids) eru seen rest)

/-- Character-list prefix test (structurally recursive). -/
def isPrefixChars : List Char → List Char → Bool
  | [], _ => true
  | _ :: _, [] => false
  | c :: cs, d :: ds => c = d && isPrefixChars cs ds

/-- Character-list substring test. -/
def isSubChars (pat : List Char) : List Char → Bool
  | [] => pat.isEmpty
  | d :: ds => isPrefixChars pat (d :: ds) || isSubChars pat ds

/-- Whether `pat` occurs inside `s`. -/
def containsSub (s pat : String) : Bool := isSubChars pat.data s.data

/-- Fallback row used with `List.getD` in index-based statements. -/
def defaultRun : Run :=
  { id := 0, status := "", phase := "", trigger_type := "", stats := none,
    logs := [], error_message := none, started_at := 0, completed_at := none,
    duration_seconds := none }

/-- Whether the adapter call for a source returns normally. -/
def adapterOk (aenv : AdapterEnv) (s : ScraperSource) : Bool :=
  match aenv s.name with
  | .ok _ => true
  | .raised _ => false

/-- The tracked URL is in the persisted set or the in-memory set. -/
def urlSeenSt (u : String) (st : SaveSt) : Prop :=
  u ∈ st.existing_resolved_urls ∨ u ∈ st.seen_resolved_urls

/-- Number of run rows whose status is `running`. -/
def countRunning (db : DB) : Nat :=
  (db.runs.filter (fun r => r.status = RunStatus.RUNNING)).length

/-! ### Concrete instances used by witnesses and counterexamples -/

/-- A stale running run (for the reaper witness). -/
def c4staleRun : Run :=
  { id := 1, status := RunStatus.RUNNING, phase := RunPhase.SCRAPING,
    trigger_type := "manual", stats := none, logs := [], error_message := none,
    started_at := 0, completed_at := none, duration_seconds := none }

/-- A young running run (for the reaper witness). -/
def c4freshRun : Run :=
  { id := 2, status := RunStatus.RUNNING, phase := RunPhase.SCRAPING,
    trigger_type := "manual", stats := none, logs := [], error_message := none,
    started_at := 90, completed_at := none, duration_seconds := none }

def c4db : DB :=
  { jobs := [], runs := [c4staleRun, c4freshRun], source_runs := [], sources := [],
    hasProfile := true, app_settings := [] }

/-- An empty store (profile present, nothing else). -/
def emptyDB : DB :=
  { jobs := [], runs := [], source_runs := [], sources := [],
    hasProfile := true, app_settings := [] }

/-- An adapter environment in which every source returns no postings. -/
def noopAdapter : AdapterEnv := fun _ => .ok []

/-- A matcher environment that returns zero counts. -/
def noopMatcher : MatchEnv := .ok ⟨0, 0, 0, 0⟩

/-- A persisted job row (source `src1`, identity `dup1`). -/
def exJob1 : Job :=
  { source := "src1", source_id := "dup1", url := "u1", resolved_url := none,
    title := "T1", company := "C1", description := "D1" }

/-- A candidate carrying the identity already persisted as `exJob1`. -/
def exDupCandidate : JobData :=
  { source := some "src1", source_id := some "dup1", url := some "u1",
    resolved_url := none, title := some "T1", company := some "C1",
    description := some "D1" }

/-- A generic run object used by save-pass witnesses. -/
def exRun1 : Run :=
  { id := 1, status := RunStatus.RUNNING, phase := RunPhase.SCRAPING,
    trigger_type := "manual", stats := none, logs := [], error_message := none,
    started_at := 50, completed_at := none, duration_seconds := none }

/-- A SourceRun row as left by a completed scrape task. -/
def exSourceRun7 : SourceRun :=
  { id := 7, run_id := 1, source_name := "src1",
    status := SourceRunStatus.COMPLETED, jobs_found := 1, jobs_new := 0,
    jobs_duplicate := 0, jobs_failed := 0, error_message := none, logs := [],
    started_at := 50, completed_at := some 55, duration_seconds := some 5 }

/-- Store for the same-source idempotence witness: `exJob1` persisted by
a first run, one SourceRun row for the second pass. -/
def c5db : DB :=
  { jobs := [exJob1], runs := [exRun1], source_runs := [exSourceRun7],
    sources := [⟨"src1", "Src One", true, 1⟩], hasProfile := true,
    app_settings := [] }

/-- The second pass over `src1`, returning only the known candidate. -/
def c5res : ScrapeResult :=
  { source_name := "src1", source_label := "Src One", source_run_id := 7,
    jobs_data := [exDupCandidate], jobs_found := 1, error := none,
    success := true }

/-- The Run columns other than `logs`, as one tuple (used to state that
an operation only appends log entries). -/
def runHeader (r : Run) :
    Nat × String × String × String × Option RunStats × Option String × Int ×
      Option Int × Option Int :=
  (r.id, r.status, r.phase, r.trigger_type, r.stats, r.error_message,
   r.started_at, r.completed_at, r.duration_seconds)

/-- An empty per-source loop state. -/
def emptySaveSt : SaveSt :=
  { jobs := [], existing_resolved_urls := [], seen_resolved_urls := [],
    existing_source_ids := [], jobs_new := 0, jobs_duplicate := 0,
    jobs_failed := 0 }

/-- A candidate whose `Job(...)` construction raises `KeyError`
(missing title), as seen by the per-job exception handler. -/
def badCandidate : JobData :=
  { source := some "src1", source_id := some "fresh9", url := some "u9",
    resolved_url := none, title := none, company := some "C9",
    description := some "D9" }

/-- Loop invariant for one resolved URL `u` that is initially absent
from the store: at most one staged row carries it, and as soon as one
does, `u` is in one of the two dedup sets, so every later candidate
carrying `u` is skipped. -/
def urlInv (u : String) (st : SaveSt) : Prop :=
  countUrl st.jobs u ≤ 1 ∧ (0 < countUrl st.jobs u → urlSeenSt u st)

/-- The same invariant at the level of the cross-source accumulator. -/
def urlInvAcc (u : String) (acc : PassAcc) : Prop :=
  countUrl acc.db.jobs u ≤ 1 ∧
    (0 < countUrl acc.db.jobs u →
      u ∈ acc.existing_resolved_urls ∨ u ∈ acc.seen_resolved_urls)

/-- Posting surfaced by source A, resolving to URL `R`. -/
def c2pA : JobData :=
  { source := some "srcA", source_id := some "a1", url := some "uA",
    resolved_url := some "R", title := some "TA", company := some "CA",
    description := some "DA" }

/-- Posting surfaced by source B, resolving to the same URL `R`. -/
def c2pB : JobData :=
  { source := some "srcB", source_id := some "b1", url := some "uB",
    resolved_url := some "R", title := some "TB", company := some "CB",
    description := some "DB9" }

def c2srA : SourceRun :=
  { id := 11, run_id := 1, source_name := "srcA",
    status := SourceRunStatus.COMPLETED, jobs_found := 1, jobs_new := 0,
    jobs_duplicate := 0, jobs_failed := 0, error_message := none, logs := [],
    started_at := 50, completed_at := some 55, duration_seconds := some 5 }

def c2srB : SourceRun :=
  { id := 12, run_id := 1, source_name := "srcB",
    status := SourceRunStatus.COMPLETED, jobs_found := 1, jobs_new := 0,
    jobs_duplicate := 0, jobs_failed := 0, error_message := none, logs := [],
    started_at := 50, completed_at := some 56, duration_seconds := some 6 }

def c2db : DB :=
  { jobs := [], runs := [exRun1], source_runs := [c2srA, c2srB],
    sources := [⟨"srcA", "Source A", true, 1⟩, ⟨"srcB", "Source B", true, 2⟩],
    hasProfile := true, app_settings := [] }

def c2resA : ScrapeResult :=
  { source_name := "srcA", source_label := "Source A", source_run_id := 11,
    jobs_data := [c2pA], jobs_found := 1, error := none, success := true }

def c2resB : ScrapeResult :=
  { source_name := "srcB", source_label := "Source B", source_run_id := 12,
    jobs_data := [c2pB], jobs_found := 1, error := none, success := true }

/-- The per-source loop state at the start of one source's save pass
(the locals of `save_jobs_and_finalize_source_runs` just before its
inner loop). -/
def initSaveSt (acc : PassAcc) (r : ScrapeResult) : SaveSt :=
  { jobs := acc.db.jobs,
    existing_resolved_urls := acc.existing_resolved_urls,
    seen_resolved_urls := acc.seen_resolved_urls,
    existing_source_ids := sourceIdsFor acc.db.jobs r.source_name,
    jobs_new := 0, jobs_duplicate := 0, jobs_failed := 0 }

/-- The accumulator at the start of the save pass. -/
def passAcc0 (db : DB) (run : Run) : PassAcc :=
  { db := db, run := run, seen_resolved_urls := [],
    existing_resolved_urls := resolvedUrls db.jobs,
    total_new := 0, total_duplicate := 0, total_failed := 0, total_found := 0 }

/-- The row `save_jobs_and_finalize_source_runs` builds from `c2pA`. -/
def c2jA : Job :=
  { source := "srcA", source_id := "a1", url := "uA", resolved_url := some "R",
    title := "TA", company := "CA", description := "DA" }

/-- Adapter environment for the all-duplicates run: every source
returns only the already-persisted candidate. -/
def c8aenv : AdapterEnv := fun _ => PyRes.ok [exDupCandidate]

/-- The all-duplicates run: one enabled source, every candidate a
same-source duplicate of `exJob1`. -/
def c8exec : ExecResult := _execute_scraping c8aenv noopMatcher 60 c5db exRun1 none

/-- Whether a log entry message mentions skipping, in any case. -/
def mentionsSkip (e : LogEntry) : Bool :=
  containsSub e.message "skip" || containsSub e.message "Skip"
    || containsSub e.message "SKIP"

/-- The SourceRun row a scrape task inserts before calling its
adapter. -/
def srStartRow (now : Int) (srid rid : Nat) (name label : String) : SourceRun :=
  { id := srid, run_id := rid, source_name := name,
    status := SourceRunStatus.RUNNING,
    jobs_found := 0, jobs_new := 0, jobs_duplicate := 0, jobs_failed := 0,
    error_message := none,
    logs := [⟨now, "info", "Starting scrape for " ++ label⟩],
    started_at := now, completed_at := none, duration_seconds := none }

/-- The SourceRun row a scrape task leaves behind when its adapter
raised `e`: marked failed, error recorded, completion stamped, failure
logged. -/
def srFailRow (now : Int) (srid rid : Nat) (name label e : String) (cnt : Nat) :
    SourceRun :=
  { id := srid, run_id := rid, source_name := name,
    status := SourceRunStatus.FAILED,
    jobs_found := 0, jobs_new := 0, jobs_duplicate := 0, jobs_failed := 0,
    error_message := some e,
    logs := [⟨now, "info", "Starting scrape for " ++ label⟩,
             ⟨now, "info", "Found " ++ toString cnt ++ " existing jobs"⟩,
             ⟨now, "error", "Failed: " ++ e⟩],
    started_at := now, completed_at := some now,
    duration_seconds := some (now - now) }

/-- The SourceRun row a scrape task leaves behind when its adapter
returned `found` postings: completed, fully logged. -/
def srOkRow (now : Int) (srid rid : Nat) (name label : String)
    (cnt found : Nat) : SourceRun :=
  { id := srid, run_id := rid, source_name := name,
    status := SourceRunStatus.COMPLETED,
    jobs_found := found, jobs_new := 0, jobs_duplicate := 0, jobs_failed := 0,
    error_message := none,
    logs := [⟨now, "info", "Starting scrape for " ++ label⟩,
             ⟨now, "info", "Found " ++ toString cnt ++ " existing jobs"⟩,
             ⟨now, "success",
              "Scraping complete: " ++ toString found ++ " jobs found"⟩],
    started_at := now, completed_at := some now,
    duration_seconds := some (now - now) }

/-- Enabled source whose adapter raises (for the C3 witness). -/
def c3A : ScraperSource := ⟨"alpha", "Alpha", true, 1⟩

/-- Enabled sibling source whose adapter succeeds (C3 witness). -/
def c3B : ScraperSource := ⟨"beta", "Beta", true, 2⟩

/-- The fresh posting the sibling source returns. -/
def c3p : JobData :=
  { source := some "beta", source_id := some "n1", url := some "uN",
    resolved_url := some "RN", title := some "TN", company := some "CN",
    description := some "DN" }

/-- The Job row built from `c3p`. -/
def c3jN : Job :=
  { source := "beta", source_id := "n1", url := "uN",
    resolved_url := some "RN", title := "TN", company := "CN",
    description := "DN" }

/-- Store for the partial-failure witness: two enabled sources, no
prior rows. -/
def c3db : DB :=
  { jobs := [], runs := [exRun1], source_runs := [],
    sources := [c3A, c3B], hasProfile := true, app_settings := [] }

/-- Adapter environment in which `alpha` raises and `beta` returns the
one fresh posting. -/
def c3aenv : AdapterEnv := fun n =>
  if n = "alpha" then PyRes.raised "boom" else PyRes.ok [c3p]

/-! ### Theorems -/

theorem getD_map_run (f : Run → Run) (l : List Run) (i : Nat) (hi : i < l.length) :
    (l.map f).getD i defaultRun = f (l.getD i defaultRun) := by
  induction l generalizing i with
  | nil => cases hi
  | cons x xs ih =>
    cases i with
    | zero => rfl
    | succ n =>
      simp only [List.map_cons, List.getD_cons_succ]
      exact ih n (by simpa using hi)

/-- C4.  One pass of `cleanup_stale_runs` keeps the table length,
returns the number of runs that were `running` and older than the
30-minute timeout, turns exactly those rows into `failed` rows with
`completed_at` stamped and a non-null error message, and leaves every
other row unchanged. -/
theorem c4_stale_run_reaper (now : Int) (db : DB) (i : Nat)
    (hi : i < db.runs.length) :
    ((cleanup_stale_runs now db).1.runs.length = db.runs.length) ∧
    ((cleanup_stale_runs now db).2 =
      (db.runs.filter (fun r => r.status = RunStatus.RUNNING ∧
        r.started_at < now - STALE_RUN_TIMEOUT_MINUTES)).length) ∧
    (((db.runs.getD i defaultRun).status = RunStatus.RUNNING ∧
        (db.runs.getD i defaultRun).started_at < now - STALE_RUN_TIMEOUT_MINUTES) →
      ((cleanup_stale_runs now db).1.runs.getD i defaultRun).status = RunStatus.FAILED ∧
      ((cleanup_stale_runs now db).1.runs.getD i defaultRun).completed_at = some now ∧
      ((cleanup_stale_runs now db).1.runs.getD i defaultRun).error_message ≠ none) ∧
    (¬((db.runs.getD i defaultRun).status = RunStatus.RUNNING ∧
        (db.runs.getD i defaultRun).started_at < now - STALE_RUN_TIMEOUT_MINUTES) →
      (cleanup_stale_runs now db).1.runs.getD i defaultRun =
        db.runs.getD i defaultRun) := by
  refine ⟨by simp [cleanup_stale_runs], rfl, ?_, ?_⟩
  · intro hstale
    have hmap : (cleanup_stale_runs now db).1.runs.getD i defaultRun =
        reapRun now (db.runs.getD i defaultRun) := by
      simpa [cleanup_stale_runs] using getD_map_run (reapRun now) db.runs i hi
    rw [hmap, reapRun, if_pos hstale]
    exact ⟨rfl, rfl, by simp⟩
  · intro hnot
    have hmap : (cleanup_stale_runs now db).1.runs.getD i defaultRun =
        reapRun now (db.runs.getD i defaultRun) := by
      simpa [cleanup_stale_runs] using getD_map_run (reapRun now) db.runs i hi
    rw [hmap, reapRun, if_neg hnot]

/-- Witness for C4 at a concrete store: the stale run flips to failed
with an error, the young one is untouched, and the count is 1. -/
theorem c4_stale_run_reaper_witness :
    ((cleanup_stale_runs 100 c4db).1.runs.getD 0 defaultRun).status = RunStatus.FAILED ∧
    ((cleanup_stale_runs 100 c4db).1.runs.getD 1 defaultRun = c4db.runs.getD 1 defaultRun) ∧
    (cleanup_stale_runs 100 c4db).2 = 1 := by
  refine ⟨((c4_stale_run_reaper 100 c4db 0 (by decide)).2.2.1 (by decide)).1,
    (c4_stale_run_reaper 100 c4db 1 (by decide)).2.2.2 (by decide),
    ((c4_stale_run_reaper 100 c4db 0 (by decide)).2.1).trans (by decide)⟩

theorem acquired_holder (sid : Nat) (lenv : LockEnv) (db : DB) (l : LockState)
    (h : (acquire_scraper_lock sid lenv db l).acquired = true) :
    (acquire_scraper_lock sid lenv db l).lock = ⟨some sid⟩ := by
  obtain ⟨lh⟩ := l
  unfold acquire_scraper_lock at *
  rcases lh with _ | hh
  · simp [pg_try_advisory_lock]
  · by_cases hsame : hh = sid
    · subst hsame
      simp [pg_try_advisory_lock]
    · simp only [pg_try_advisory_lock, if_neg hsame] at h ⊢
      by_cases hr : hasRunningRun db
      · simp [hr] at h
      · simp only [hr] at h ⊢
        by_cases ht : lenv.terminateOk
        · simp only [ht, if_true, if_false] at h ⊢
          rcases hs : lenv.stolenBy with _ | h2
          · simp [hs]
          · by_cases h2s : h2 = sid
            · subst h2s; simp [hs]
            · simp [hs, h2s] at h
        · simp [ht] at h

/-- C6.  When the first `pg_try_advisory_lock` fails, the orchestrator
performs at most one stale-lock recovery attempt: it terminates the
holding session only when no run row is `running` and retries the lock
exactly once; if a running run exists, or the termination fails, or the
retry fails (another session grabbed the freed lock first), acquisition
returns false, and `scrape_and_save_jobs` then raises its
already-running error without creating any Run record. -/
theorem c6_lock_recovery (sid : Nat) (lenv : LockEnv) (db : DB) (l : LockState)
    (aenv : AdapterEnv) (menv : MatchEnv) (now : Int) (lock0 : LockState)
    (trig : String) (names : Option (List String)) :
    ((acquire_scraper_lock sid lenv db l).tryAcquireCalls ≤ 2 ∧
     (acquire_scraper_lock sid lenv db l).terminateCalls ≤ 1) ∧
    ((acquire_scraper_lock sid lenv db l).terminateCalls = 1 →
      (pg_try_advisory_lock sid l).1 = false ∧ hasRunningRun db = false) ∧
    (hasRunningRun db = true → (pg_try_advisory_lock sid l).1 = false →
      (acquire_scraper_lock sid lenv db l).acquired = false ∧
      (acquire_scraper_lock sid lenv db l).terminateCalls = 0) ∧
    ((pg_try_advisory_lock sid l).1 = false → lenv.terminateOk = false →
      (acquire_scraper_lock sid lenv db l).acquired = false) ∧
    ((pg_try_advisory_lock sid l).1 = false → lenv.terminateOk = true →
      (∃ h2, lenv.stolenBy = some h2 ∧ h2 ≠ sid) →
      (acquire_scraper_lock sid lenv db l).acquired = false) ∧
    ((acquire_scraper_lock sid lenv (cleanup_stale_runs now db).1 lock0).acquired
        = false →
      (scrape_and_save_jobs sid lenv aenv menv now db lock0 trig names).outcome =
        .raised lockNotAcquiredMsg ∧
      (scrape_and_save_jobs sid lenv aenv menv now db lock0 trig names).db.runs.length
        = db.runs.length) := by
  refine ⟨?_, ?_, ?_, ?_, ?_, ?_⟩
  · unfold acquire_scraper_lock
    by_cases h1 : (pg_try_advisory_lock sid l).1
    · simp [h1]
    · by_cases hr : hasRunningRun db
      · simp [h1, hr]
      · by_cases ht : lenv.terminateOk <;> simp [h1, hr, ht]
  · unfold acquire_scraper_lock
    by_cases h1 : (pg_try_advisory_lock sid l).1
    · simp [h1]
    · by_cases hr : hasRunningRun db
      · simp [h1, hr]
      · by_cases ht : lenv.terminateOk <;>
          simp [h1, hr, ht, Bool.not_eq_true] at *
  · intro hr h1
    unfold acquire_scraper_lock
    simp [h1, hr]
  · intro h1 ht
    unfold acquire_scraper_lock
    by_cases hr : hasRunningRun db <;> simp [h1, hr, ht]
  · rintro h1 ht ⟨h2, hs, hne⟩
    unfold acquire_scraper_lock
    rw [if_neg (by simp [h1])]
    by_cases hr : hasRunningRun db
    · simp [hr]
    · simp only [hr, if_false, ht, if_true, hs]
      simp [pg_try_advisory_lock, hne]
  · intro hfail
    have hval : scrape_and_save_jobs sid lenv aenv menv now db lock0 trig names =
        ⟨.raised lockNotAcquiredMsg, (cleanup_stale_runs now db).1,
         (acquire_scraper_lock sid lenv (cleanup_stale_runs now db).1 lock0).lock⟩ := by
      unfold scrape_and_save_jobs
      rw [if_neg (by simp [hfail])]
    rw [hval]
    exact ⟨rfl, by simp [cleanup_stale_runs]⟩

/-- Witness for C6: with a lock held by session 2, no running run, and
a failing termination, session 1 does not acquire, and the orchestrator
raises the already-running error. -/
theorem c6_lock_recovery_witness :
    (acquire_scraper_lock 1 ⟨false, none⟩ emptyDB ⟨some 2⟩).acquired = false ∧
    (scrape_and_save_jobs 1 ⟨false, none⟩ noopAdapter noopMatcher 0 emptyDB
      ⟨some 2⟩ "manual" none).outcome = .raised lockNotAcquiredMsg := by
  have h := c6_lock_recovery 1 ⟨false, none⟩ emptyDB ⟨some 2⟩ noopAdapter
    noopMatcher 0 ⟨some 2⟩ "manual" none
  exact ⟨h.2.2.2.1 (by decide) rfl, (h.2.2.2.2.2 (by decide)).1⟩

/-- C7.  On every path of `scrape_and_save_jobs` on which the lock was
acquired — normal completion, the post-acquisition double-check
failure, or an exception out of `_execute_scraping` (missing profile,
no enabled sources, save-pass or matching errors) — the `finally`
block releases the lock before the call returns, so a subsequent
`pg_try_advisory_lock` by any session immediately succeeds. -/
theorem c7_lock_released (sid : Nat) (lenv : LockEnv) (aenv : AdapterEnv)
    (menv : MatchEnv) (now : Int) (db : DB) (lock : LockState) (trig : String)
    (names : Option (List String)) (s2 : Nat)
    (hacq : (acquire_scraper_lock sid lenv
      (cleanup_stale_runs now db).1 lock).acquired = true) :
    (scrape_and_save_jobs sid lenv aenv menv now db lock trig names).lock.holder
      = none ∧
    (pg_try_advisory_lock s2
      (scrape_and_save_jobs sid lenv aenv menv now db lock trig names).lock).1
      = true := by
  have hheld := acquired_holder sid lenv (cleanup_stale_runs now db).1 lock hacq
  have hmain : (scrape_and_save_jobs sid lenv aenv menv now db lock trig
      names).lock.holder = none := by
    unfold scrape_and_save_jobs
    simp only [hacq, if_true]
    rcases hfind : (cleanup_stale_runs now db).1.runs.find?
        (fun r => r.status = RunStatus.RUNNING) with _ | rr <;>
      simp [hfind, release_scraper_lock, hheld]
  exact ⟨hmain, by simp [pg_try_advisory_lock, hmain]⟩

/-- Witness for C7: a run with a missing profile acquires and then
fails the precondition, yet leaves the lock free. -/
theorem c7_lock_released_witness :
    (scrape_and_save_jobs 1 ⟨true, none⟩ noopAdapter noopMatcher 0
      { emptyDB with hasProfile := false } ⟨none⟩ "manual" none).lock.holder
      = none := by
  exact (c7_lock_released 1 ⟨true, none⟩ noopAdapter noopMatcher 0
    { emptyDB with hasProfile := false } ⟨none⟩ "manual" none 2 (by decide)).1

theorem hasRunningRun_find (db : DB) :
    hasRunningRun db = true ↔
      (db.runs.find? (fun r => r.status = RunStatus.RUNNING)).isSome := by
  simp [hasRunningRun, List.any_eq_true, List.find?_isSome]

theorem countRunning_eq_zero (db : DB) (h : hasRunningRun db = false) :
    countRunning db = 0 := by
  have : ∀ r ∈ db.runs, ¬(r.status = RunStatus.RUNNING) := by
    intro r hr
    by_contra hc
    have : hasRunningRun db = true := by
      simp [hasRunningRun, List.any_eq_true]
      exact ⟨r, hr, hc⟩
    simp [this] at h
  simp only [countRunning]
  rw [List.filter_eq_nil_iff.mpr (by simpa using this)]
  rfl

/-- C9.  Both code paths that create a Run in `running` status first
verify that no run row is currently `running`: the HTTP trigger
`run_scraper` rejects (409) with the store untouched when a running
run exists, and when it does create its run no running run existed
before, leaving exactly one afterwards; the lock-holding orchestrator
entry `scrape_and_save_jobs` re-checks after acquiring the lock and
raises without touching the runs table when a (post-reaper) running
run exists. -/
theorem c9_single_running_run (now : Int) (db : DB) (sid : Nat) (lenv : LockEnv)
    (aenv : AdapterEnv) (menv : MatchEnv) (lock : LockState) (trig : String)
    (names : Option (List String)) :
    (hasRunningRun db = true →
      (∃ e, (run_scraper now db).1 = .raised e) ∧ (run_scraper now db).2 = db) ∧
    (∀ rid, (run_scraper now db).1 = .ok rid →
      hasRunningRun db = false ∧ countRunning (run_scraper now db).2 = 1) ∧
    (hasRunningRun (cleanup_stale_runs now db).1 = true →
      (∃ e, (scrape_and_save_jobs sid lenv aenv menv now db lock trig
        names).outcome = .raised e) ∧
      (scrape_and_save_jobs sid lenv aenv menv now db lock trig names).db.runs =
        (cleanup_stale_runs now db).1.runs) := by
  refine ⟨?_, ?_, ?_⟩
  · intro h
    obtain ⟨rr, hfind⟩ := Option.isSome_iff_exists.mp ((hasRunningRun_find db).mp h)
    unfold run_scraper
    by_cases hp : db.hasProfile
    · simp [hp, hfind]
    · simp [hp]
  · intro rid hok
    unfold run_scraper at hok ⊢
    by_cases hp : db.hasProfile
    · rcases hfind : db.runs.find? (fun r => r.status = RunStatus.RUNNING) with
        _ | rr
      · have hnr : hasRunningRun db = false := by
          rw [← Bool.not_eq_true, hasRunningRun_find db, hfind]
          simp
        refine ⟨hnr, ?_⟩
        simp only [hp, hfind, if_true]
        simp only [countRunning, List.filter_append]
        rw [List.filter_eq_nil_iff.mpr ?_]
        · simp [RunStatus.RUNNING]
        · intro r hr
          by_contra hc
          have : hasRunningRun db = true := by
            simp [hasRunningRun, List.any_eq_true]
            exact ⟨r, hr, by simpa using hc⟩
          simp [this] at hnr
      · simp [hp, hfind] at hok
    · simp [hp] at hok
  · intro h
    obtain ⟨rr, hfind⟩ := Option.isSome_iff_exists.mp
      ((hasRunningRun_find (cleanup_stale_runs now db).1).mp h)
    unfold scrape_and_save_jobs
    by_cases hacq : (acquire_scraper_lock sid lenv (cleanup_stale_runs now db).1
        lock).acquired
    · simp [hacq, hfind]
    · simp [hacq]

/-- Witness for C9: with one running run in the store, both entry
points reject and create nothing. -/
theorem c9_single_running_run_witness :
    (∃ e, (run_scraper 100 c4db).1 = .raised e) ∧ (run_scraper 100 c4db).2 = c4db := by
  exact (c9_single_running_run 100 c4db 1 ⟨true, none⟩ noopAdapter noopMatcher
    ⟨none⟩ "manual" none).1 (by decide)

theorem updateSourceRun_jobs (db : DB) (i : Nat) (f : SourceRun → SourceRun) :
    (updateSourceRun db i f).jobs = db.jobs := rfl

theorem commitRun_jobs (db : DB) (r : Run) : (commitRun db r).jobs = db.jobs := rfl

theorem saveOneJob_same_source_dup (st : SaveSt) (jd : JobData) (sid : String)
    (hsid : jd.source_id = some sid) (hmem : sid ∈ st.existing_source_ids) :
    saveOneJob st jd = { st with jobs_duplicate := st.jobs_duplicate + 1 } := by
  simp [saveOneJob, hsid, hmem]

theorem foldl_all_dup (jobs : List JobData) (st : SaveSt)
    (hall : ∀ jd ∈ jobs, ∃ sid, jd.source_id = some sid ∧
      sid ∈ st.existing_source_ids) :
    jobs.foldl saveOneJob st =
      { st with jobs_duplicate := st.jobs_duplicate + jobs.length } := by
  induction jobs generalizing st with
  | nil => simp
  | cons jd rest ih =>
    obtain ⟨sid, hsid, hmem⟩ := hall jd (by simp)
    rw [List.foldl_cons, saveOneJob_same_source_dup st jd sid hsid hmem,
      ih _ (by intro jd2 h2; simpa using hall jd2 (by simp [h2]))]
    simp only [List.length_cons]
    congr 1
    omega

/-- C5.  Same-source deduplication is idempotent: a candidate whose
identity is in the per-source identity set (pre-loaded, and refreshed
as rows are staged within the pass) is counted as a duplicate and no
Job row is created for it, the loop state being otherwise untouched;
consequently a second pass over a source whose every returned posting
carries an already-persisted identity stages zero new Jobs, counts all
candidates as duplicates, and writes `jobs_new = 0` onto that
SourceRun. -/
theorem c5_same_source_idempotent (now : Int) (db : DB) (run : Run)
    (res : ScrapeResult) :
    (∀ st jd sid, jd.source_id = some sid → sid ∈ st.existing_source_ids →
      saveOneJob st jd = { st with jobs_duplicate := st.jobs_duplicate + 1 }) ∧
    (res.success = true →
      (db.source_runs.find? (fun sr => sr.id = res.source_run_id)).isSome →
      (∀ jd ∈ res.jobs_data, ∃ sid, jd.source_id = some sid ∧
        sid ∈ sourceIdsFor db.jobs res.source_name) →
      (save_jobs_and_finalize_source_runs now db run [res]).1.jobs = db.jobs ∧
      (save_jobs_and_finalize_source_runs now db run [res]).2.2.new = 0 ∧
      (save_jobs_and_finalize_source_runs now db run [res]).2.2.duplicate =
        res.jobs_data.length ∧
      (∀ sr ∈ (save_jobs_and_finalize_source_runs now db run [res]).1.source_runs,
        sr.id = res.source_run_id →
          sr.jobs_new = 0 ∧ sr.jobs_duplicate = res.jobs_data.length)) := by
  refine ⟨fun st jd sid h1 h2 => saveOneJob_same_source_dup st jd sid h1 h2, ?_⟩
  intro hsucc hfind hall
  obtain ⟨sr0, hsr0⟩ := Option.isSome_iff_exists.mp hfind
  unfold save_jobs_and_finalize_source_runs
  simp only [List.foldl_cons, List.foldl_nil]
  unfold processResult
  rw [if_pos hsucc]
  simp only [hsr0]
  rw [foldl_all_dup res.jobs_data _ (by simpa [commitRun, updateSourceRun] using hall)]
  refine ⟨rfl, rfl, by simp, ?_⟩
  intro sr hmem hid
  simp only [commitRun, updateSourceRun, List.map_map] at hmem
  obtain ⟨sr1, _, hsr1⟩ := List.mem_map.mp hmem
  by_cases hcase : sr1.id = res.source_run_id
  · simp only [Function.comp, hcase, if_pos, add_source_log] at hsr1
    rw [← hsr1]
    exact ⟨rfl, by simp⟩
  · exfalso
    simp only [Function.comp, hcase, if_neg, if_false] at hsr1
    rw [← hsr1] at hid
    exact hcase hid

/-- Witness for C5 at a concrete store: re-scraping the single
already-persisted posting yields zero new jobs, one duplicate, and an
unchanged jobs table. -/
theorem c5_same_source_idempotent_witness :
    (save_jobs_and_finalize_source_runs 60 c5db exRun1 [c5res]).1.jobs = c5db.jobs ∧
    (save_jobs_and_finalize_source_runs 60 c5db exRun1 [c5res]).2.2.new = 0 ∧
    (save_jobs_and_finalize_source_runs 60 c5db exRun1 [c5res]).2.2.duplicate = 1 := by
  have h := (c5_same_source_idempotent 60 c5db exRun1 c5res).2 (by decide)
    (by decide)
    (by
      intro jd hjd
      simp only [c5res, List.mem_singleton] at hjd
      exact ⟨"dup1", by simp [hjd, exDupCandidate], by decide⟩)
  exact ⟨h.1, h.2.1, h.2.2.1⟩

theorem persistJob_counts (st : SaveSt) (jd : JobData) :
    ((persistJob st jd).jobs_new + (persistJob st jd).jobs_duplicate
        + (persistJob st jd).jobs_failed
      = st.jobs_new + st.jobs_duplicate + st.jobs_failed + 1) ∧
    ((persistJob st jd).jobs.length + st.jobs_new
      = st.jobs.length + (persistJob st jd).jobs_new) := by
  cases hb : buildJob jd <;> simp [persistJob, hb] <;> omega

theorem crossCheckAndPersist_counts (st : SaveSt) (jd : JobData) :
    ((crossCheckAndPersist st jd).jobs_new + (crossCheckAndPersist st jd).jobs_duplicate
        + (crossCheckAndPersist st jd).jobs_failed
      = st.jobs_new + st.jobs_duplicate + st.jobs_failed + 1) ∧
    ((crossCheckAndPersist st jd).jobs.length + st.jobs_new
      = st.jobs.length + (crossCheckAndPersist st jd).jobs_new) := by
  unfold crossCheckAndPersist
  rcases hr : jd.resolved_url with _ | u
  · exact persistJob_counts st jd
  · by_cases hseen : u ∈ st.existing_resolved_urls ∨ u ∈ st.seen_resolved_urls
    · rcases ht : jd.title with _ | t <;> simp [hseen, ht] <;> omega
    · simp only [hseen, if_false]
      have h := persistJob_counts { st with seen_resolved_urls := u :: st.seen_resolved_urls } jd
      simpa using h

theorem saveOneJob_counts (st : SaveSt) (jd : JobData) :
    ((saveOneJob st jd).jobs_new + (saveOneJob st jd).jobs_duplicate
        + (saveOneJob st jd).jobs_failed
      = st.jobs_new + st.jobs_duplicate + st.jobs_failed + 1) ∧
    ((saveOneJob st jd).jobs.length + st.jobs_new
      = st.jobs.length + (saveOneJob st jd).jobs_new) := by
  unfold saveOneJob
  rcases hsid : jd.source_id with _ | sid
  · exact crossCheckAndPersist_counts st jd
  · by_cases hmem : sid ∈ st.existing_source_ids
    · simp [hmem]; omega
    · simp only [hmem, if_false]
      exact crossCheckAndPersist_counts st jd

theorem foldl_saveOneJob_counts (jobs : List JobData) (st : SaveSt) :
    ((jobs.foldl saveOneJob st).jobs_new + (jobs.foldl saveOneJob st).jobs_duplicate
        + (jobs.foldl saveOneJob st).jobs_failed
      = st.jobs_new + st.jobs_duplicate + st.jobs_failed + jobs.length) ∧
    ((jobs.foldl saveOneJob st).jobs.length + st.jobs_new
      = st.jobs.length + (jobs.foldl saveOneJob st).jobs_new) := by
  induction jobs generalizing st with
  | nil => simp
  | cons jd rest ih =>
    have h1 := saveOneJob_counts st jd
    have h2 := ih (saveOneJob st jd)
    simp only [List.foldl_cons, List.length_cons]
    constructor <;> omega

theorem processResult_runHeader (now : Int) (acc : PassAcc) (r : ScrapeResult) :
    runHeader (processResult now acc r).run = runHeader acc.run := by
  unfold processResult
  by_cases hs : r.success
  · simp only [hs, if_true]
    rcases hf : acc.db.source_runs.find? (fun sr => sr.id = r.source_run_id) with
      _ | sr0 <;> simp [hf, add_log, runHeader]
  · simp [hs]

theorem foldl_processResult_runHeader (now : Int) (rs : List ScrapeResult) :
    ∀ acc : PassAcc, runHeader ((rs.foldl (processResult now) acc).run) =
      runHeader acc.run := by
  induction rs with
  | nil => intro acc; rfl
  | cons r rest ih =>
    intro acc
    rw [List.foldl_cons, ih (processResult now acc r),
      processResult_runHeader now acc r]

theorem save_pass_runHeader (now : Int) (db : DB) (run : Run)
    (rs : List ScrapeResult) :
    runHeader (save_jobs_and_finalize_source_runs now db run rs).2.1 =
      runHeader run := by
  unfold save_jobs_and_finalize_source_runs
  exact foldl_processResult_runHeader now rs _

/-- C10.  An exception while persisting one candidate (a `KeyError`
from a missing required field in the `Job(...)` constructor) is caught
inside the per-job loop: it increments only that source's
`jobs_failed`, stages no row, the loop keeps folding over the
remaining candidates of this and later sources, every candidate is
classified exactly once into new/duplicate/failed (rows staged match
the new count), and the save pass never touches the Run's status. -/
theorem c10_per_job_failure_isolation (now : Int) (db : DB) (run : Run)
    (rs : List ScrapeResult) (st : SaveSt) (jd : JobData)
    (jobs pre post : List JobData) :
    ((∀ sid, jd.source_id = some sid → sid ∉ st.existing_source_ids) →
     (∀ u, jd.resolved_url = some u → ¬ urlSeenSt u st) →
     buildJob jd = none →
     (saveOneJob st jd).jobs = st.jobs ∧
     (saveOneJob st jd).jobs_new = st.jobs_new ∧
     (saveOneJob st jd).jobs_duplicate = st.jobs_duplicate ∧
     (saveOneJob st jd).jobs_failed = st.jobs_failed + 1) ∧
    ((pre ++ jd :: post).foldl saveOneJob st =
      post.foldl saveOneJob (saveOneJob (pre.foldl saveOneJob st) jd)) ∧
    ((jobs.foldl saveOneJob st).jobs_new + (jobs.foldl saveOneJob st).jobs_duplicate
        + (jobs.foldl saveOneJob st).jobs_failed
      = st.jobs_new + st.jobs_duplicate + st.jobs_failed + jobs.length) ∧
    ((jobs.foldl saveOneJob st).jobs.length + st.jobs_new
      = st.jobs.length + (jobs.foldl saveOneJob st).jobs_new) ∧
    ((save_jobs_and_finalize_source_runs now db run rs).2.1.status = run.status) := by
  refine ⟨?_, by simp, (foldl_saveOneJob_counts jobs st).1,
    (foldl_saveOneJob_counts jobs st).2, ?_⟩
  · intro hss hcr hb
    unfold saveOneJob
    have hcross : (crossCheckAndPersist st jd).jobs = st.jobs ∧
        (crossCheckAndPersist st jd).jobs_new = st.jobs_new ∧
        (crossCheckAndPersist st jd).jobs_duplicate = st.jobs_duplicate ∧
        (crossCheckAndPersist st jd).jobs_failed = st.jobs_failed + 1 := by
      unfold crossCheckAndPersist
      rcases hr : jd.resolved_url with _ | u
      · simp [persistJob, hb]
      · have hns : ¬(u ∈ st.existing_resolved_urls ∨ u ∈ st.seen_resolved_urls) :=
          hcr u hr
        simp [hns, persistJob, hb]
    rcases hsid : jd.source_id with _ | sid
    · exact hcross
    · have : sid ∉ st.existing_source_ids := hss sid hsid
      simpa [this] using hcross
  · have h := save_pass_runHeader now db run rs
    exact congrArg (fun t => t.2.1) h

/-- Witness for C10: a candidate with a missing title fails alone, and
the save pass leaves a concrete run's status untouched. -/
theorem c10_per_job_failure_isolation_witness :
    (saveOneJob emptySaveSt badCandidate).jobs = [] ∧
    (saveOneJob emptySaveSt badCandidate).jobs_failed = 1 ∧
    (save_jobs_and_finalize_source_runs 60 c5db exRun1 [c5res]).2.1.status =
      exRun1.status := by
  have h := c10_per_job_failure_isolation 60 c5db exRun1 [c5res] emptySaveSt
    badCandidate [] [] []
  have h1 := h.1 (by intro sid hs; simp [emptySaveSt])
    (by intro u hu; simp [badCandidate] at hu) rfl
  exact ⟨h1.1, by rw [h1.2.2.2]; rfl, h.2.2.2.2⟩

theorem buildJob_resolved (jd : JobData) (job : Job) (h : buildJob jd = some job) :
    job.resolved_url = jd.resolved_url := by
  obtain ⟨s, sid, u, r, t, c, d⟩ := jd
  rcases s with _ | s <;> rcases sid with _ | sid <;> rcases u with _ | u <;>
    rcases t with _ | t <;> rcases c with _ | c <;> rcases d with _ | d <;>
    simp [buildJob] at h <;> simp [h.symm]

theorem countUrl_append (l1 l2 : List Job) (u : String) :
    countUrl (l1 ++ l2) u = countUrl l1 u + countUrl l2 u := by
  simp [countUrl, List.filter_append]

theorem countUrl_eq_zero_of_not_mem (jobs : List Job) (u : String)
    (h : u ∉ resolvedUrls jobs) : countUrl jobs u = 0 := by
  simp only [countUrl, List.length_eq_zero]
  rw [List.filter_eq_nil_iff]
  intro j hj
  simp only [decide_eq_true_eq]
  intro hju
  exact h (by
    simp only [resolvedUrls, List.mem_filterMap]
    exact ⟨j, hj, hju⟩)

theorem saveOneJob_cross_dup (st : SaveSt) (jd : JobData) (u t : String)
    (hurl : jd.resolved_url = some u) (ht : jd.title = some t)
    (hseen : urlSeenSt u st) :
    (saveOneJob st jd).jobs = st.jobs ∧
    (saveOneJob st jd).jobs_new = st.jobs_new ∧
    (saveOneJob st jd).jobs_duplicate = st.jobs_duplicate + 1 ∧
    (saveOneJob st jd).jobs_failed = st.jobs_failed := by
  have hseen' : u ∈ st.existing_resolved_urls ∨ u ∈ st.seen_resolved_urls := hseen
  unfold saveOneJob
  rcases hsid : jd.source_id with _ | sid
  · simp [crossCheckAndPersist, hurl, hseen', ht]
  · by_cases hmem : sid ∈ st.existing_source_ids
    · simp [hmem]
    · simp [hmem, crossCheckAndPersist, hurl, hseen', ht]

theorem saveOneJob_fresh_persist (st : SaveSt) (jd : JobData) (sid u : String)
    (job : Job) (hsid : jd.source_id = some sid)
    (hnots : sid ∉ st.existing_source_ids) (hurl : jd.resolved_url = some u)
    (hseen : ¬ urlSeenSt u st) (hb : buildJob jd = some job) :
    saveOneJob st jd =
      { st with
        jobs := st.jobs ++ [job],
        jobs_new := st.jobs_new + 1,
        existing_source_ids := sid :: st.existing_source_ids,
        existing_resolved_urls := u :: st.existing_resolved_urls,
        seen_resolved_urls := u :: st.seen_resolved_urls } := by
  have hseen' : ¬(u ∈ st.existing_resolved_urls ∨ u ∈ st.seen_resolved_urls) := hseen
  simp [saveOneJob, hsid, hnots, crossCheckAndPersist, hurl, hseen', persistJob, hb]

theorem crossCheck_step_props (st : SaveSt) (jd : JobData) (u : String) :
    ((crossCheckAndPersist st jd).jobs = st.jobs ∨
      ∃ job, buildJob jd = some job ∧
        (crossCheckAndPersist st jd).jobs = st.jobs ++ [job] ∧
        (job.resolved_url = some u →
          ¬ urlSeenSt u st ∧
            u ∈ (crossCheckAndPersist st jd).existing_resolved_urls)) ∧
    (urlSeenSt u st → urlSeenSt u (crossCheckAndPersist st jd)) := by
  unfold crossCheckAndPersist persistJob
  rcases hr : jd.resolved_url with _ | v
  · rcases hb : buildJob jd with _ | job
    · exact ⟨Or.inl rfl, fun hs => hs⟩
    · refine ⟨Or.inr ⟨job, rfl, rfl, ?_⟩, fun hs => hs⟩
      intro hju
      rw [buildJob_resolved jd job hb, hr] at hju
      exact absurd hju (by simp)
  · by_cases hseen : v ∈ st.existing_resolved_urls ∨ v ∈ st.seen_resolved_urls
    · rcases ht : jd.title with _ | t <;>
        simp only [hseen, if_true, ht] <;>
        exact ⟨Or.inl (by trivial), fun hs => hs⟩
    · simp only [hseen, if_false]
      rcases hb : buildJob jd with _ | job
      · refine ⟨Or.inl rfl, fun hs => ?_⟩
        rcases hs with h1 | h2
        · exact Or.inl h1
        · exact Or.inr (List.mem_cons_of_mem _ h2)
      · refine ⟨Or.inr ⟨job, rfl, rfl, ?_⟩, fun hs => ?_⟩
        · intro hju
          have hvu : v = u := by
            have he := buildJob_resolved jd job hb
            rw [he, hr] at hju
            exact Option.some.inj hju
          subst hvu
          exact ⟨hseen, List.mem_cons_self _ _⟩
        · rcases hs with h1 | h2
          · exact Or.inl (List.mem_cons_of_mem _ h1)
          · exact Or.inr (List.mem_cons_of_mem _ h2)

theorem saveOneJob_step_props (st : SaveSt) (jd : JobData) (u : String) :
    ((saveOneJob st jd).jobs = st.jobs ∨
      ∃ job, buildJob jd = some job ∧
        (saveOneJob st jd).jobs = st.jobs ++ [job] ∧
        (job.resolved_url = some u →
          ¬ urlSeenSt u st ∧ u ∈ (saveOneJob st jd).existing_resolved_urls)) ∧
    (urlSeenSt u st → urlSeenSt u (saveOneJob st jd)) := by
  unfold saveOneJob
  rcases hsid : jd.source_id with _ | sid
  · exact crossCheck_step_props st jd u
  · by_cases hmem : sid ∈ st.existing_source_ids
    · simp only [hmem, if_true]
      exact ⟨Or.inl (by trivial), fun hs => hs⟩
    · simp only [hmem, if_false]
      exact crossCheck_step_props st jd u

theorem saveOneJob_urlInv (u : String) (st : SaveSt) (jd : JobData)
    (h : urlInv u st) : urlInv u (saveOneJob st jd) := by
  obtain ⟨hshape, hmono⟩ := saveOneJob_step_props st jd u
  rcases hshape with heq | ⟨job, hb, heq, himp⟩
  · refine ⟨?_, ?_⟩
    · rw [heq]; exact h.1
    · intro hc
      rw [heq] at hc
      exact hmono (h.2 hc)
  · by_cases hju : job.resolved_url = some u
    · obtain ⟨hnots, hmem'⟩ := himp hju
      have hc0 : countUrl st.jobs u = 0 := by
        by_contra hne
        exact hnots (h.2 (Nat.pos_of_ne_zero hne))
      refine ⟨?_, ?_⟩
      · rw [heq, countUrl_append, hc0]
        simp [countUrl, hju]
      · intro _
        exact Or.inl hmem'
    · have hz : countUrl [job] u = 0 := by simp [countUrl, hju]
      refine ⟨?_, ?_⟩
      · rw [heq, countUrl_append, hz]
        simpa using h.1
      · intro hc
        rw [heq, countUrl_append, hz] at hc
        exact hmono (h.2 (by simpa using hc))

theorem foldl_saveOneJob_urlInv (u : String) (jobs : List JobData) :
    ∀ st : SaveSt, urlInv u st → urlInv u (jobs.foldl saveOneJob st) := by
  induction jobs with
  | nil => intro st h; exact h
  | cons jd rest ih =>
    intro st h
    rw [List.foldl_cons]
    exact ih (saveOneJob st jd) (saveOneJob_urlInv u st jd h)

theorem processResult_urlInvAcc (u : String) (now : Int) (acc : PassAcc)
    (r : ScrapeResult) (h : urlInvAcc u acc) :
    urlInvAcc u (processResult now acc r) := by
  unfold processResult
  by_cases hs : r.success
  · simp only [hs, if_true]
    rcases hf : acc.db.source_runs.find? (fun sr => sr.id = r.source_run_id) with
      _ | sr0
    · simp only [hf]
      exact h
    · simp only [hf]
      exact foldl_saveOneJob_urlInv u r.jobs_data _ h
  · simp only [hs, Bool.false_eq_true, if_false]
    exact h

theorem save_url_at_most_one (now : Int) (db : DB) (run : Run)
    (results : List ScrapeResult) (u : String)
    (hfresh : u ∉ resolvedUrls db.jobs) :
    countUrl (save_jobs_and_finalize_source_runs now db run results).1.jobs u ≤ 1 := by
  have hz := countUrl_eq_zero_of_not_mem db.jobs u hfresh
  have hstep : ∀ (rs : List ScrapeResult) (acc : PassAcc), urlInvAcc u acc →
      urlInvAcc u (rs.foldl (processResult now) acc) := by
    intro rs
    induction rs with
    | nil => intro acc h; exact h
    | cons r rest ih =>
      intro acc h
      rw [List.foldl_cons]
      exact ih _ (processResult_urlInvAcc u now acc r h)
  have h0 : urlInvAcc u
      { db := db, run := run, seen_resolved_urls := [],
        existing_resolved_urls := resolvedUrls db.jobs,
        total_new := 0, total_duplicate := 0, total_failed := 0,
        total_found := 0 } := by
    refine ⟨?_, ?_⟩
    · show countUrl db.jobs u ≤ 1
      omega
    · intro hc
      rw [show countUrl db.jobs u = 0 from hz] at hc
      exact absurd hc (by omega)
  exact (hstep results _ h0).1

theorem save_eq_foldl (now : Int) (db : DB) (run : Run)
    (rs : List ScrapeResult) :
    (save_jobs_and_finalize_source_runs now db run rs).1 =
      (rs.foldl (processResult now) (passAcc0 db run)).db ∧
    (save_jobs_and_finalize_source_runs now db run rs).2.2 =
      { total := (rs.foldl (processResult now) (passAcc0 db run)).total_found,
        new := (rs.foldl (processResult now) (passAcc0 db run)).total_new,
        duplicate := (rs.foldl (processResult now) (passAcc0 db run)).total_duplicate,
        failed := (rs.foldl (processResult now) (passAcc0 db run)).total_failed } :=
  ⟨rfl, rfl⟩

theorem processResult_fields (now : Int) (acc : PassAcc) (r : ScrapeResult)
    (hs : r.success = true)
    (hfind : (acc.db.source_runs.find? (fun sr => sr.id = r.source_run_id)).isSome) :
    (processResult now acc r).db.jobs =
      (r.jobs_data.foldl saveOneJob (initSaveSt acc r)).jobs ∧
    (processResult now acc r).existing_resolved_urls =
      (r.jobs_data.foldl saveOneJob (initSaveSt acc r)).existing_resolved_urls ∧
    (processResult now acc r).seen_resolved_urls =
      (r.jobs_data.foldl saveOneJob (initSaveSt acc r)).seen_resolved_urls ∧
    (processResult now acc r).total_new =
      acc.total_new + (r.jobs_data.foldl saveOneJob (initSaveSt acc r)).jobs_new ∧
    (processResult now acc r).total_duplicate =
      acc.total_duplicate +
        (r.jobs_data.foldl saveOneJob (initSaveSt acc r)).jobs_duplicate ∧
    (processResult now acc r).total_failed =
      acc.total_failed +
        (r.jobs_data.foldl saveOneJob (initSaveSt acc r)).jobs_failed ∧
    (processResult now acc r).total_found = acc.total_found + r.jobs_found ∧
    (processResult now acc r).db.source_runs =
      (acc.db.source_runs.map (fun sr =>
        if sr.id = r.source_run_id then
          add_source_log now sr "Saving jobs to database..." "info" else sr)).map
        (fun sr => if sr.id = r.source_run_id then
          add_source_log now
            { sr with
              jobs_new := (r.jobs_data.foldl saveOneJob (initSaveSt acc r)).jobs_new,
              jobs_duplicate :=
                (r.jobs_data.foldl saveOneJob (initSaveSt acc r)).jobs_duplicate,
              jobs_failed :=
                (r.jobs_data.foldl saveOneJob (initSaveSt acc r)).jobs_failed }
            ("Saved: "
              ++ toString (r.jobs_data.foldl saveOneJob (initSaveSt acc r)).jobs_new
              ++ " new, "
              ++ toString
                (r.jobs_data.foldl saveOneJob (initSaveSt acc r)).jobs_duplicate
              ++ " duplicates, "
              ++ toString
                (r.jobs_data.foldl saveOneJob (initSaveSt acc r)).jobs_failed
              ++ " failed") "success" else sr) := by
  obtain ⟨sr0, hf⟩ := Option.isSome_iff_exists.mp hfind
  unfold processResult
  simp only [hs, if_true, hf]
  refine ⟨?_, ?_, ?_, ?_, ?_, ?_, ?_, ?_⟩ <;> first | rfl | trivial

theorem processResult_ids (now : Int) (acc : PassAcc) (r : ScrapeResult) :
    (processResult now acc r).db.source_runs.map (fun sr => sr.id) =
      acc.db.source_runs.map (fun sr => sr.id) := by
  unfold processResult
  by_cases hs : r.success
  · simp only [hs, if_true]
    rcases hf : acc.db.source_runs.find? (fun sr => sr.id = r.source_run_id) with
      _ | sr0
    · simp [hf]
    · simp only [hf, commitRun, updateSourceRun, List.map_map]
      apply List.map_congr_left
      intro sr _
      simp only [Function.comp]
      by_cases h1 : sr.id = r.source_run_id <;> simp [h1, add_source_log]
  · simp [hs]

theorem find_id_isSome_of_mem (l : List SourceRun) (j : Nat)
    (h : j ∈ l.map (fun sr => sr.id)) :
    (l.find? (fun sr => sr.id = j)).isSome := by
  rw [List.find?_isSome]
  obtain ⟨x, hx, hxe⟩ := List.mem_map.mp h
  exact ⟨x, hx, by simp [hxe]⟩

theorem c2_scenario (now : Int) (db : DB) (run : Run) (resA resB : ScrapeResult)
    (pA pB : JobData) (u sid : String) (jA : Job) (tB : String)
    (hsA : resA.success = true) (hsB : resB.success = true)
    (hdA : resA.jobs_data = [pA]) (hdB : resB.jobs_data = [pB])
    (hmemA : resA.source_run_id ∈ db.source_runs.map (fun sr => sr.id))
    (hmemB : resB.source_run_id ∈ db.source_runs.map (fun sr => sr.id))
    (hAB : resA.source_run_id ≠ resB.source_run_id)
    (hurlA : pA.resolved_url = some u) (hurlB : pB.resolved_url = some u)
    (hfresh : u ∉ resolvedUrls db.jobs)
    (hsidA : pA.source_id = some sid)
    (hnots : sid ∉ sourceIdsFor db.jobs resA.source_name)
    (hjA : buildJob pA = some jA) (htB : pB.title = some tB) :
    (save_jobs_and_finalize_source_runs now db run [resA, resB]).1.jobs =
      db.jobs ++ [jA] ∧
    countUrl (save_jobs_and_finalize_source_runs now db run [resA, resB]).1.jobs u
      = 1 ∧
    (save_jobs_and_finalize_source_runs now db run [resA, resB]).2.2.new = 1 ∧
    (save_jobs_and_finalize_source_runs now db run [resA, resB]).2.2.duplicate
      = 1 ∧
    (∀ sr ∈ (save_jobs_and_finalize_source_runs now db run [resA, resB]).1.source_runs,
      (sr.id = resA.source_run_id → sr.jobs_new = 1 ∧ sr.jobs_duplicate = 0) ∧
      (sr.id = resB.source_run_id → sr.jobs_new = 0 ∧ sr.jobs_duplicate = 1)) := by
  -- Source A's inner loop: its single fresh posting persists as new.
  have hfoldA : resA.jobs_data.foldl saveOneJob (initSaveSt (passAcc0 db run) resA) =
      { jobs := db.jobs ++ [jA],
        existing_resolved_urls := u :: resolvedUrls db.jobs,
        seen_resolved_urls := [u],
        existing_source_ids := sid :: sourceIdsFor db.jobs resA.source_name,
        jobs_new := 1, jobs_duplicate := 0, jobs_failed := 0 } := by
    rw [hdA, List.foldl_cons, List.foldl_nil,
      saveOneJob_fresh_persist (initSaveSt (passAcc0 db run) resA) pA sid u jA
        hsidA hnots hurlA
        (by
          rintro (h | h)
          · exact hfresh h
          · simp [initSaveSt, passAcc0] at h)
        hjA]
    rfl
  have hAnew : (resA.jobs_data.foldl saveOneJob
      (initSaveSt (passAcc0 db run) resA)).jobs_new = 1 := by rw [hfoldA]
  have hAdup : (resA.jobs_data.foldl saveOneJob
      (initSaveSt (passAcc0 db run) resA)).jobs_duplicate = 0 := by rw [hfoldA]
  have hfindA : ((passAcc0 db run).db.source_runs.find?
      (fun sr => sr.id = resA.source_run_id)).isSome :=
    find_id_isSome_of_mem _ _ hmemA
  obtain ⟨hA1, hA2, hA3, hA4, hA5, hA6, hA7, hA8⟩ :=
    processResult_fields now (passAcc0 db run) resA hsA hfindA
  rw [hfoldA] at hA1 hA2 hA3
  rw [hAnew] at hA4
  rw [hAdup] at hA5
  -- Source B's loop state starts with `u` in the in-memory sets.
  have hfindB : ((processResult now (passAcc0 db run) resA).db.source_runs.find?
      (fun sr => sr.id = resB.source_run_id)).isSome := by
    apply find_id_isSome_of_mem
    rw [processResult_ids]
    exact hmemB
  have hinitB : initSaveSt (processResult now (passAcc0 db run) resA) resB =
      { jobs := db.jobs ++ [jA],
        existing_resolved_urls := u :: resolvedUrls db.jobs,
        seen_resolved_urls := [u],
        existing_source_ids :=
          sourceIdsFor (db.jobs ++ [jA]) resB.source_name,
        jobs_new := 0, jobs_duplicate := 0, jobs_failed := 0 } := by
    unfold initSaveSt
    rw [hA1, hA2, hA3]
  have hcd := saveOneJob_cross_dup
    (initSaveSt (processResult now (passAcc0 db run) resA) resB) pB u tB hurlB htB
    (by
      rw [hinitB]
      exact Or.inl (List.mem_cons_self _ _))
  have hBjobs : (resB.jobs_data.foldl saveOneJob
      (initSaveSt (processResult now (passAcc0 db run) resA) resB)).jobs =
      db.jobs ++ [jA] := by
    rw [hdB, List.foldl_cons, List.foldl_nil, hcd.1, hinitB]
  have hBnew : (resB.jobs_data.foldl saveOneJob
      (initSaveSt (processResult now (passAcc0 db run) resA) resB)).jobs_new
      = 0 := by
    rw [hdB, List.foldl_cons, List.foldl_nil, hcd.2.1, hinitB]
  have hBdup : (resB.jobs_data.foldl saveOneJob
      (initSaveSt (processResult now (passAcc0 db run) resA) resB)).jobs_duplicate
      = 1 := by
    rw [hdB, List.foldl_cons, List.foldl_nil, hcd.2.2.1, hinitB]
  obtain ⟨hB1, hB2, hB3, hB4, hB5, hB6, hB7, hB8⟩ :=
    processResult_fields now (processResult now (passAcc0 db run) resA) resB
      hsB hfindB
  rw [hBjobs] at hB1
  rw [hBnew] at hB4
  rw [hBdup] at hB5
  rw [hA4] at hB4
  rw [hA5] at hB5
  -- Unfold the save pass to the two chained accumulator steps.
  have hsave1 : (save_jobs_and_finalize_source_runs now db run [resA, resB]).1 =
      (processResult now (processResult now (passAcc0 db run) resA) resB).db := by
    rw [(save_eq_foldl now db run [resA, resB]).1, List.foldl_cons,
      List.foldl_cons, List.foldl_nil]
  have hsave2 : (save_jobs_and_finalize_source_runs now db run [resA, resB]).2.2 =
      { total := (processResult now (processResult now (passAcc0 db run) resA)
          resB).total_found,
        new := (processResult now (processResult now (passAcc0 db run) resA)
          resB).total_new,
        duplicate := (processResult now (processResult now (passAcc0 db run) resA)
          resB).total_duplicate,
        failed := (processResult now (processResult now (passAcc0 db run) resA)
          resB).total_failed } := by
    rw [(save_eq_foldl now db run [resA, resB]).2, List.foldl_cons,
      List.foldl_cons, List.foldl_nil]
  have hjAurl : jA.resolved_url = some u := by
    rw [buildJob_resolved pA jA hjA, hurlA]
  refine ⟨?_, ?_, ?_, ?_, ?_⟩
  · rw [hsave1, hB1]
  · rw [hsave1, hB1, countUrl_append,
      countUrl_eq_zero_of_not_mem db.jobs u hfresh]
    simp [countUrl, hjAurl]
  · rw [hsave2]
    simp only [hB4]
    simp [passAcc0]
  · rw [hsave2]
    simp only [hB5]
    simp [passAcc0]
  · intro sr hmem
    rw [hsave1, hB8, hA8, hfoldA, List.map_map, List.map_map] at hmem
    obtain ⟨sr0, hsr0mem, hsr0eq⟩ := List.mem_map.mp hmem
    simp only [Function.comp] at hsr0eq
    by_cases hcaseA : sr0.id = resA.source_run_id
    · rw [← hsr0eq]
      simp [hcaseA, hAB, add_source_log]
    · by_cases hcaseB : sr0.id = resB.source_run_id
      · rw [← hsr0eq]
        simp [hcaseA, hcaseB, Ne.symm hAB, add_source_log, hBnew, hBdup]
      · rw [← hsr0eq]
        simp [hcaseA, hcaseB]

/-- C2.  Cross-source deduplication within one save pass: a candidate
carrying a resolved URL that is in the persisted set loaded before the
pass or in the in-memory set accumulated during the pass is counted as
a duplicate and stages no row; over a whole pass at most one row with
any resolved URL absent from the store is created; and for two
successful sources each returning a posting resolving to the same
fresh URL, exactly one Job row is created — the earlier source
persists it (`jobs_new = 1`), the later source records it as a
duplicate (`jobs_new = 0`, `jobs_duplicate = 1`). -/
theorem c2_cross_source_dedup (now : Int) (db : DB) (run : Run)
    (results : List ScrapeResult) (resA resB : ScrapeResult) (pA pB : JobData)
    (u t sid : String) (st : SaveSt) (jd : JobData) :
    (jd.resolved_url = some u → jd.title = some t → urlSeenSt u st →
      (saveOneJob st jd).jobs = st.jobs ∧
      (saveOneJob st jd).jobs_new = st.jobs_new ∧
      (saveOneJob st jd).jobs_duplicate = st.jobs_duplicate + 1) ∧
    (u ∉ resolvedUrls db.jobs →
      countUrl (save_jobs_and_finalize_source_runs now db run results).1.jobs u
        ≤ 1) ∧
    (resA.success = true → resB.success = true →
      resA.jobs_data = [pA] → resB.jobs_data = [pB] →
      resA.source_run_id ∈ db.source_runs.map (fun sr => sr.id) →
      resB.source_run_id ∈ db.source_runs.map (fun sr => sr.id) →
      resA.source_run_id ≠ resB.source_run_id →
      pA.resolved_url = some u → pB.resolved_url = some u →
      u ∉ resolvedUrls db.jobs →
      pA.source_id = some sid → sid ∉ sourceIdsFor db.jobs resA.source_name →
      ∀ jA, buildJob pA = some jA → ∀ tB, pB.title = some tB →
      (save_jobs_and_finalize_source_runs now db run [resA, resB]).1.jobs =
        db.jobs ++ [jA] ∧
      countUrl (save_jobs_and_finalize_source_runs now db run [resA, resB]).1.jobs u
        = 1 ∧
      (save_jobs_and_finalize_source_runs now db run [resA, resB]).2.2.new = 1 ∧
      (save_jobs_and_finalize_source_runs now db run [resA, resB]).2.2.duplicate
        = 1 ∧
      (∀ sr ∈ (save_jobs_and_finalize_source_runs now db run
          [resA, resB]).1.source_runs,
        (sr.id = resA.source_run_id → sr.jobs_new = 1 ∧ sr.jobs_duplicate = 0) ∧
        (sr.id = resB.source_run_id → sr.jobs_new = 0 ∧ sr.jobs_duplicate = 1))) := by
  refine ⟨?_, ?_, ?_⟩
  · intro h1 h2 h3
    have h := saveOneJob_cross_dup st jd u t h1 h2 h3
    exact ⟨h.1, h.2.1, h.2.2.1⟩
  · intro hfresh
    exact save_url_at_most_one now db run results u hfresh
  · intro hsA hsB hdA hdB hmemA hmemB hAB hurlA hurlB hfresh hsidA hnots jA hjA
      tB htB
    exact c2_scenario now db run resA resB pA pB u sid jA tB hsA hsB hdA hdB
      hmemA hmemB hAB hurlA hurlB hfresh hsidA hnots hjA htB

/-- Witness for C2 at a concrete store: sources A and B both surface a
posting resolving to URL `R`; exactly one row is created, counted new
for A and duplicate for B. -/
theorem c2_cross_source_dedup_witness :
    countUrl (save_jobs_and_finalize_source_runs 60 c2db exRun1
      [c2resA, c2resB]).1.jobs "R" = 1 ∧
    (save_jobs_and_finalize_source_runs 60 c2db exRun1
      [c2resA, c2resB]).2.2.new = 1 ∧
    (save_jobs_and_finalize_source_runs 60 c2db exRun1
      [c2resA, c2resB]).2.2.duplicate = 1 := by
  have h := (c2_cross_source_dedup 60 c2db exRun1 [c2resA, c2resB] c2resA c2resB
      c2pA c2pB "R" "TB" "a1" emptySaveSt c2pA).2.2
    rfl rfl rfl rfl (by decide) (by decide) (by decide) rfl rfl (by decide)
    rfl (by decide) c2jA rfl "TB" rfl
  exact ⟨h.2.1, h.2.2.1, h.2.2.2.1⟩

theorem runScrapeTasks_success (env : AdapterEnv) (now : Int) (rid : Nat)
    (sources : List ScraperSource) :
    ∀ db : DB, (runScrapeTasks env now rid db sources).2.map (fun r => r.success)
      = sources.map (fun s => adapterOk env s) := by
  induction sources with
  | nil => intro db; rfl
  | cons s rest ih =>
    intro db
    simp only [runScrapeTasks, List.map_cons]
    rw [ih]
    congr 1
    rcases henv : env s.name with jobs | e <;>
      simp [scrape_source_parallel, henv, adapterOk]

theorem filterlen_of_map_eq {α β : Type} (f : α → Bool) (g : β → Bool)
    (l1 : List α) (l2 : List β) (h : l1.map f = l2.map g) (p : Bool → Bool) :
    (l1.filter (fun a => p (f a))).length = (l2.filter (fun b => p (g b))).length := by
  rw [← List.countP_eq_length_filter, ← List.countP_eq_length_filter]
  have h2 := congrArg (List.countP p) h
  rwa [List.countP_map, List.countP_map] at h2

theorem runScrapeTasks_failed_count (env : AdapterEnv) (now : Int) (rid : Nat)
    (sources : List ScraperSource) (db : DB) :
    ((runScrapeTasks env now rid db sources).2.filter
      (fun r => !r.success)).length =
      (sources.filter (fun s => !(adapterOk env s))).length :=
  filterlen_of_map_eq (fun r : ScrapeResult => r.success) (adapterOk env) _
    sources (runScrapeTasks_success env now rid sources db) (fun b => !b)

theorem c1_fail_helper (now : Int) (db' : DB) (run' : Run) (e : String) (c : Bool)
    (P : Stats → Prop) :
    (∀ s, (failRunExec now db' run' e c).outcome = PyRes.ok s → P s) ∧
    (∀ e2, (failRunExec now db' run' e c).outcome = PyRes.raised e2 →
      (failRunExec now db' run' e c).run.status = RunStatus.FAILED ∧
      (failRunExec now db' run' e c).run.error_message = some e2 ∧
      (failRunExec now db' run' e c).run.completed_at = some now) := by
  constructor
  · intro s h
    exact absurd h (by simp [failRunExec])
  · intro e2 h
    have he : e = e2 := by simpa [failRunExec] using h
    subst he
    exact ⟨rfl, rfl, rfl⟩

theorem execMain_c1 (aenv : AdapterEnv) (menv : MatchEnv) (now : Int) (db : DB)
    (run : Run) (sources : List ScraperSource) :
    (∀ s, (execMain aenv menv now db run sources).outcome = PyRes.ok s →
      (execMain aenv menv now db run sources).run.status =
        (if s.sources_failed = 0 then RunStatus.COMPLETED else RunStatus.PARTIAL) ∧
      s.sources_failed =
        (sources.filter (fun src => !(adapterOk aenv src))).length ∧
      (execMain aenv menv now db run sources).run.error_message =
        run.error_message ∧
      (execMain aenv menv now db run sources).run.completed_at = some now) ∧
    (∀ e, (execMain aenv menv now db run sources).outcome = PyRes.raised e →
      (execMain aenv menv now db run sources).run.status = RunStatus.FAILED ∧
      (execMain aenv menv now db run sources).run.error_message = some e ∧
      (execMain aenv menv now db run sources).run.completed_at = some now) := by
  unfold execMain
  have hhdr := save_pass_runHeader now
    (commitRun (runScrapeTasks aenv now run.id db sources).1
      (add_log now run
        "All scraping complete. Saving jobs with cross-source deduplication..."
        "info"))
    (add_log now run
      "All scraping complete. Saving jobs with cross-source deduplication..."
      "info")
    (runScrapeTasks aenv now run.id db sources).2
  have herr : (save_jobs_and_finalize_source_runs now
      (commitRun (runScrapeTasks aenv now run.id db sources).1
        (add_log now run
          "All scraping complete. Saving jobs with cross-source deduplication..."
          "info"))
      (add_log now run
        "All scraping complete. Saving jobs with cross-source deduplication..."
        "info")
      (runScrapeTasks aenv now run.id db sources).2).2.1.error_message =
      run.error_message :=
    congrArg (fun t => t.2.2.2.2.2.1) hhdr
  have hcnt := runScrapeTasks_failed_count aenv now run.id sources
    (commitRun db (add_log now run
      "All scraping complete. Saving jobs with cross-source deduplication..."
      "info"))
  by_cases hnew : 0 < (save_jobs_and_finalize_source_runs now
      (commitRun (runScrapeTasks aenv now run.id db sources).1
        (add_log now run
          "All scraping complete. Saving jobs with cross-source deduplication..."
          "info"))
      (add_log now run
        "All scraping complete. Saving jobs with cross-source deduplication..."
        "info")
      (runScrapeTasks aenv now run.id db sources).2).2.2.new
  · simp only [hnew, if_true]
    rcases menv with ms | e
    · constructor
      · intro s hok
        have hs : s = _ := (PyRes.ok.inj hok).symm
        subst hs
        refine ⟨rfl, ?_, ?_, rfl⟩
        · exact runScrapeTasks_failed_count aenv now run.id sources _
        · exact herr
      · intro e2 h
        exact absurd h (by simp [finalizeExec])
    · constructor
      · intro s h
        exact absurd h (by simp [failRunExec])
      · intro e2 h
        have he : e = e2 := by simpa [failRunExec] using h
        subst he
        exact ⟨rfl, rfl, rfl⟩
  · simp only [hnew, if_false]
    constructor
    · intro s hok
      have hs : s = _ := (PyRes.ok.inj hok).symm
      subst hs
      refine ⟨rfl, ?_, ?_, rfl⟩
      · exact runScrapeTasks_failed_count aenv now run.id sources _
      · exact herr
    · intro e2 h
      exact absurd h (by simp [finalizeExec])

/-- C1.  Finalization of `_execute_scraping`: when the body completes
without a structural error (`outcome = ok`), the run's status is
`completed` exactly when zero source tasks failed and `partial`
otherwise (the failed-source count being the number of selected
sources whose adapter raised), with `completed_at` stamped and no
error message written; when a structural error escapes (missing
profile, no enabled sources, a bad job-limit setting, or a matching
failure), the run is `failed` with that error message, `completed_at`
stamped, and the exception re-raised as the outcome. -/
theorem c1_finalization (aenv : AdapterEnv) (menv : MatchEnv) (now : Int)
    (db : DB) (run : Run) (names : Option (List String))
    (hmsg : run.error_message = none) :
    (∀ s, (_execute_scraping aenv menv now db run names).outcome = PyRes.ok s →
      (_execute_scraping aenv menv now db run names).run.status =
        (if s.sources_failed = 0 then RunStatus.COMPLETED else RunStatus.PARTIAL) ∧
      s.sources_failed =
        ((selectSources db names).filter (fun src => !(adapterOk aenv src))).length ∧
      (_execute_scraping aenv menv now db run names).run.error_message = none ∧
      (_execute_scraping aenv menv now db run names).run.completed_at = some now) ∧
    (∀ e, (_execute_scraping aenv menv now db run names).outcome = PyRes.raised e →
      (_execute_scraping aenv menv now db run names).run.status =
        RunStatus.FAILED ∧
      (_execute_scraping aenv menv now db run names).run.error_message = some e ∧
      (_execute_scraping aenv menv now db run names).run.completed_at = some now) := by
  unfold _execute_scraping
  by_cases hp : db.hasProfile
  · rw [if_pos hp]
    by_cases hemp : (selectSources db names).isEmpty
    · rw [if_pos hemp]
      exact c1_fail_helper now db run noSourcesMsg false _
    · rw [if_neg hemp]
      rcases hpi : pyInt (get_setting (commitRun db (add_log now run
          ("Starting parallel scraping from "
            ++ toString (selectSources db names).length ++ " source(s): "
            ++ String.intercalate ", "
              ((selectSources db names).map (fun s => s.label))) "info"))
          "scrape_job_limit" "0") with _ | jl
      · simp only [hpi]
        exact c1_fail_helper now _ _ _ false _
      · simp only [hpi]
        constructor
        · intro s hok
          obtain ⟨h1, h2, h3, h4⟩ := (execMain_c1 aenv menv now _ _ _).1 s hok
          exact ⟨h1, h2, h3.trans hmsg, h4⟩
        · intro e he
          exact (execMain_c1 aenv menv now _ _ _).2 e he
  · rw [if_neg hp]
    exact c1_fail_helper now db run noProfileMsg false _

/-- Witness for C1: a run with no user profile fails with the
precondition message; a run over two sources whose adapters both
return normally completes with zero failed sources. -/
theorem c1_finalization_witness :
    (_execute_scraping noopAdapter noopMatcher 0
      { emptyDB with hasProfile := false } exRun1 none).run.status =
      RunStatus.FAILED ∧
    (_execute_scraping noopAdapter noopMatcher 0
      { emptyDB with hasProfile := false } exRun1 none).run.error_message =
      some noProfileMsg ∧
    (_execute_scraping noopAdapter noopMatcher 60 c2db exRun1 none).run.status =
      RunStatus.COMPLETED := by
  have h1 := (c1_finalization noopAdapter noopMatcher 0
    { emptyDB with hasProfile := false } exRun1 none rfl).2 noProfileMsg
    (by decide)
  have h2 := (c1_finalization noopAdapter noopMatcher 60 c2db exRun1 none rfl).1
    ⟨0, 0, 0, 0, 2, 0⟩ (by decide)
  exact ⟨h1.1, h1.2.1, by rw [h2.1]; rfl⟩

theorem execMain_c8 (aenv : AdapterEnv) (menv : MatchEnv) (now : Int) (db : DB)
    (run : Run) (sources : List ScraperSource)
    (hphase : run.phase = RunPhase.SCRAPING) :
    ((execMain aenv menv now db run sources).run.phase = RunPhase.MATCHING ↔
      (execMain aenv menv now db run sources).matcherCalled = true) ∧
    (∀ s, (execMain aenv menv now db run sources).outcome = PyRes.ok s →
      (0 < s.new →
        (execMain aenv menv now db run sources).run.phase = RunPhase.MATCHING ∧
        (execMain aenv menv now db run sources).matcherCalled = true) ∧
      (s.new = 0 →
        (execMain aenv menv now db run sources).run.phase = RunPhase.SCRAPING ∧
        (execMain aenv menv now db run sources).matcherCalled = false ∧
        (s.sources_failed = 0 →
          (execMain aenv menv now db run sources).run.status =
            RunStatus.COMPLETED))) := by
  unfold execMain
  have hhdr := save_pass_runHeader now
    (commitRun (runScrapeTasks aenv now run.id db sources).1
      (add_log now run
        "All scraping complete. Saving jobs with cross-source deduplication..."
        "info"))
    (add_log now run
      "All scraping complete. Saving jobs with cross-source deduplication..."
      "info")
    (runScrapeTasks aenv now run.id db sources).2
  have hph : (save_jobs_and_finalize_source_runs now
      (commitRun (runScrapeTasks aenv now run.id db sources).1
        (add_log now run
          "All scraping complete. Saving jobs with cross-source deduplication..."
          "info"))
      (add_log now run
        "All scraping complete. Saving jobs with cross-source deduplication..."
        "info")
      (runScrapeTasks aenv now run.id db sources).2).2.1.phase =
      run.phase :=
    congrArg (fun t => t.2.2.1) hhdr
  by_cases hnew : 0 < (save_jobs_and_finalize_source_runs now
      (commitRun (runScrapeTasks aenv now run.id db sources).1
        (add_log now run
          "All scraping complete. Saving jobs with cross-source deduplication..."
          "info"))
      (add_log now run
        "All scraping complete. Saving jobs with cross-source deduplication..."
        "info")
      (runScrapeTasks aenv now run.id db sources).2).2.2.new
  · simp only [hnew, if_true]
    rcases menv with ms | e
    · refine ⟨⟨fun _ => rfl, fun _ => rfl⟩, ?_⟩
      intro s hok
      have hs : s = _ := (PyRes.ok.inj hok).symm
      subst hs
      refine ⟨fun _ => ⟨rfl, rfl⟩, fun hz => ?_⟩
      exfalso
      have hz2 : (save_jobs_and_finalize_source_runs now
      (commitRun (runScrapeTasks aenv now run.id db sources).1
        (add_log now run
          "All scraping complete. Saving jobs with cross-source deduplication..."
          "info"))
      (add_log now run
        "All scraping complete. Saving jobs with cross-source deduplication..."
        "info")
      (runScrapeTasks aenv now run.id db sources).2).2.2.new = 0 := hz
      omega
    · refine ⟨⟨fun _ => rfl, fun _ => rfl⟩, ?_⟩
      intro s h
      exact absurd h (by simp [failRunExec])
  · simp only [hnew, if_false]
    have hsc2 : (save_jobs_and_finalize_source_runs now
        (commitRun (runScrapeTasks aenv now run.id db sources).1
          (add_log now run
            "All scraping complete. Saving jobs with cross-source deduplication..."
            "info"))
        (add_log now run
          "All scraping complete. Saving jobs with cross-source deduplication..."
          "info")
        (runScrapeTasks aenv now run.id db sources).2).2.1.phase = RunPhase.SCRAPING := hph.trans hphase
    refine ⟨?_, ?_⟩
    · constructor
      · intro h
        exact absurd (hsc2.symm.trans
          (show (save_jobs_and_finalize_source_runs now
        (commitRun (runScrapeTasks aenv now run.id db sources).1
          (add_log now run
            "All scraping complete. Saving jobs with cross-source deduplication..."
            "info"))
        (add_log now run
          "All scraping complete. Saving jobs with cross-source deduplication..."
          "info")
        (runScrapeTasks aenv now run.id db sources).2).2.1.phase = RunPhase.MATCHING from h)) (by decide)
      · intro h
        exact absurd (show false = true from h) (by decide)
    · intro s hok
      have hs : s = _ := (PyRes.ok.inj hok).symm
      subst hs
      constructor
      · intro hpos
        exact absurd hpos (by intro hc; exact hnew hc)
      · intro _
        refine ⟨hsc2, rfl, fun hz => ?_⟩
        show (if _ = 0 then RunStatus.COMPLETED else RunStatus.PARTIAL) = _
        rw [if_pos hz]

theorem c8_fail_helper (now : Int) (db' : DB) (run' : Run) (e : String)
    (hph : run'.phase = RunPhase.SCRAPING) (P : Stats → Prop) :
    ((failRunExec now db' run' e false).run.phase = RunPhase.MATCHING ↔
      (failRunExec now db' run' e false).matcherCalled = true) ∧
    (∀ s, (failRunExec now db' run' e false).outcome = PyRes.ok s → P s) := by
  constructor
  · constructor
    · intro h
      have h2 : run'.phase = RunPhase.MATCHING := h
      rw [hph] at h2
      exact absurd h2 (by decide)
    · intro h
      exact absurd h (by simp [failRunExec])
  · intro s h
    exact absurd h (by simp [failRunExec])

/-- Counterexample for C8 as stated: in a run in which every candidate
is a duplicate (zero new postings, matching skipped, run completed),
no entry of the finished Run's log — nor of any run or SourceRun row in
the final store — mentions skipping; the skip notice goes only to the
console logger. -/
theorem c8_skip_matching_counterexample :
    c8exec.outcome = PyRes.ok ⟨1, 0, 1, 0, 1, 0⟩ ∧
    c8exec.run.status = RunStatus.COMPLETED ∧
    c8exec.run.phase = RunPhase.SCRAPING ∧
    c8exec.matcherCalled = false ∧
    (c8exec.run.logs.all (fun e => !(mentionsSkip e))) = true ∧
    ((c8exec.db.runs.map (fun r => r.logs)).join.all
      (fun e => !(mentionsSkip e))) = true ∧
    ((c8exec.db.source_runs.map (fun sr => sr.logs)).join.all
      (fun e => !(mentionsSkip e))) = true := by
  decide

/-- C8 (amended).  For every run reaching finalization with zero new
postings surviving deduplication, the phase is never set to `matching`
(it stays `scraping`), the matching collaborator is not invoked, and
the run finalizes `completed` with `new = 0` when no source failed;
the phase is `matching` exactly when the matcher was invoked, which
happens exactly when at least one new posting was persisted.  (The
skip is only printed to the console; no `skipped` entry is appended to
the Run's log — see the counterexample.) -/
theorem c8_skip_matching (aenv : AdapterEnv) (menv : MatchEnv) (now : Int)
    (db : DB) (run : Run) (names : Option (List String))
    (hphase : run.phase = RunPhase.SCRAPING) :
    ((_execute_scraping aenv menv now db run names).run.phase =
        RunPhase.MATCHING ↔
      (_execute_scraping aenv menv now db run names).matcherCalled = true) ∧
    (∀ s, (_execute_scraping aenv menv now db run names).outcome = PyRes.ok s →
      (0 < s.new →
        (_execute_scraping aenv menv now db run names).run.phase =
          RunPhase.MATCHING ∧
        (_execute_scraping aenv menv now db run names).matcherCalled = true) ∧
      (s.new = 0 →
        (_execute_scraping aenv menv now db run names).run.phase =
          RunPhase.SCRAPING ∧
        (_execute_scraping aenv menv now db run names).matcherCalled = false ∧
        (s.sources_failed = 0 →
          (_execute_scraping aenv menv now db run names).run.status =
            RunStatus.COMPLETED))) := by
  unfold _execute_scraping
  by_cases hp : db.hasProfile
  · rw [if_pos hp]
    by_cases hemp : (selectSources db names).isEmpty
    · rw [if_pos hemp]
      exact c8_fail_helper now db run noSourcesMsg hphase _
    · rw [if_neg hemp]
      rcases hpi : pyInt (get_setting (commitRun db (add_log now run
          ("Starting parallel scraping from "
            ++ toString (selectSources db names).length ++ " source(s): "
            ++ String.intercalate ", "
              ((selectSources db names).map (fun s => s.label))) "info"))
          "scrape_job_limit" "0") with _ | jl
      · simp only [hpi]
        exact c8_fail_helper now
          (commitRun db (add_log now run
            ("Starting parallel scraping from "
              ++ toString (selectSources db names).length ++ " source(s): "
              ++ String.intercalate ", "
                ((selectSources db names).map (fun s => s.label))) "info"))
          (add_log now run
            ("Starting parallel scraping from "
              ++ toString (selectSources db names).length ++ " source(s): "
              ++ String.intercalate ", "
                ((selectSources db names).map (fun s => s.label))) "info")
          ("invalid literal for int() with base 10: "
            ++ get_setting (commitRun db (add_log now run
              ("Starting parallel scraping from "
                ++ toString (selectSources db names).length ++ " source(s): "
                ++ String.intercalate ", "
                  ((selectSources db names).map (fun s => s.label))) "info"))
              "scrape_job_limit" "0")
          hphase _
      · simp only [hpi]
        exact execMain_c8 aenv menv now _ _ _ hphase
  · rw [if_neg hp]
    exact c8_fail_helper now db run noProfileMsg hphase _

/-- Witness for C8 at the all-duplicates run: phase stays `scraping`,
the matcher is not invoked, and the run completes. -/
theorem c8_skip_matching_witness :
    c8exec.run.phase = RunPhase.SCRAPING ∧
    c8exec.matcherCalled = false ∧
    c8exec.run.status = RunStatus.COMPLETED := by
  have h := (c8_skip_matching c8aenv noopMatcher 60 c5db exRun1 none rfl).2
    ⟨1, 0, 1, 0, 1, 0⟩ (by decide)
  have h2 := h.2 rfl
  exact ⟨h2.1, h2.2.1, h2.2.2 rfl⟩

theorem scrape_raised_eq (env : AdapterEnv) (now : Int) (db : DB) (rid : Nat)
    (name label e : String) (henv : env name = PyRes.raised e) :
    scrape_source_parallel env now db rid name label =
      ({ db with
          source_runs :=
            ((db.source_runs ++ [srStartRow now (nextSourceRunId db) rid
                name label]).map
              (fun sr => if sr.id = nextSourceRunId db then
                add_source_log now sr
                  ("Found "
                    ++ toString ((db.jobs.filter
                      (fun j => j.source = name)).length)
                    ++ " existing jobs") "info" else sr)).map
              (fun sr => if sr.id = nextSourceRunId db then
                add_source_log now
                  { sr with status := SourceRunStatus.FAILED,
                            error_message := some e,
                            completed_at := some now,
                            duration_seconds := some (now - sr.started_at) }
                  ("Failed: " ++ e) "error" else sr),
          runs := (db.runs.map (fun r => if r.id = rid then
              add_log now r ("Starting " ++ label ++ " scraper") "info"
              else r)).map
            (fun r => if r.id = rid then
              add_log now r ("[" ++ label ++ "] Failed: " ++ e) "error"
              else r) },
       { source_name := name, source_label := label,
         source_run_id := nextSourceRunId db, jobs_data := [], jobs_found := 0,
         error := some e, success := false }) := by
  unfold scrape_source_parallel
  rw [henv]
  rfl

theorem scrape_ok_eq (env : AdapterEnv) (now : Int) (db : DB) (rid : Nat)
    (name label : String) (jobs_data : List JobData)
    (henv : env name = PyRes.ok jobs_data) :
    scrape_source_parallel env now db rid name label =
      ({ db with
          source_runs :=
            ((db.source_runs ++ [srStartRow now (nextSourceRunId db) rid
                name label]).map
              (fun sr => if sr.id = nextSourceRunId db then
                add_source_log now sr
                  ("Found "
                    ++ toString ((db.jobs.filter
                      (fun j => j.source = name)).length)
                    ++ " existing jobs") "info" else sr)).map
              (fun sr => if sr.id = nextSourceRunId db then
                add_source_log now
                  { sr with jobs_found := jobs_data.length,
                            status := SourceRunStatus.COMPLETED,
                            completed_at := some now,
                            duration_seconds := some (now - sr.started_at) }
                  ("Scraping complete: " ++ toString jobs_data.length
                    ++ " jobs found") "success" else sr),
          runs := (db.runs.map (fun r => if r.id = rid then
              add_log now r ("Starting " ++ label ++ " scraper") "info"
              else r)).map
            (fun r => if r.id = rid then
              add_log now r
                ("[" ++ label ++ "] Scraping complete: "
                  ++ toString jobs_data.length ++ " jobs found") "success"
              else r) },
       { source_name := name, source_label := label,
         source_run_id := nextSourceRunId db, jobs_data := jobs_data,
         jobs_found := jobs_data.length, error := none, success := true }) := by
  unfold scrape_source_parallel
  rw [henv]
  rfl

theorem processResult_skip_failed (now : Int) (acc : PassAcc) (r : ScrapeResult)
    (hs : r.success = false) : processResult now acc r = acc := by
  unfold processResult
  rw [hs]
  rfl

theorem saveOneJob_fresh_persist_nourl (st : SaveSt) (jd : JobData)
    (sid : String) (job : Job) (hsid : jd.source_id = some sid)
    (hnots : sid ∉ st.existing_source_ids) (hurl : jd.resolved_url = none)
    (hb : buildJob jd = some job) :
    saveOneJob st jd =
      { st with
        jobs := st.jobs ++ [job],
        jobs_new := st.jobs_new + 1,
        existing_source_ids := sid :: st.existing_source_ids } := by
  simp [saveOneJob, hsid, hnots, crossCheckAndPersist, hurl, persistJob, hb]

theorem foldl_fresh (l : List JobData) :
    ∀ st : SaveSt,
      FreshChain st.existing_source_ids st.existing_resolved_urls
        st.seen_resolved_urls l →
      (l.foldl saveOneJob st).jobs = st.jobs ++ l.filterMap buildJob ∧
      (l.foldl saveOneJob st).jobs_new = st.jobs_new + l.length ∧
      (l.foldl saveOneJob st).jobs_duplicate = st.jobs_duplicate ∧
      (l.foldl saveOneJob st).jobs_failed = st.jobs_failed := by
  induction l with
  | nil => intro st _; simp
  | cons jd rest ih =>
    intro st h
    obtain ⟨hb, sid, hsid, hnots, hrest⟩ := h
    obtain ⟨job, hjob⟩ := Option.isSome_iff_exists.mp hb
    rw [List.foldl_cons]
    rcases hurl : jd.resolved_url with _ | u
    · rw [hurl] at hrest
      have hrest2 : FreshChain (sid :: st.existing_source_ids)
          st.existing_resolved_urls st.seen_resolved_urls rest := hrest
      rw [saveOneJob_fresh_persist_nourl st jd sid job hsid hnots hurl hjob]
      obtain ⟨h1, h2, h3, h4⟩ := ih
        { st with
          jobs := st.jobs ++ [job],
          jobs_new := st.jobs_new + 1,
          existing_source_ids := sid :: st.existing_source_ids } hrest2
      refine ⟨?_, ?_, h3, h4⟩
      · rw [h1]
        simp [List.filterMap_cons, hjob]
      · rw [h2]
        simp
        omega
    · rw [hurl] at hrest
      obtain ⟨⟨hu1, hu2⟩, hrest⟩ := hrest
      rw [saveOneJob_fresh_persist st jd sid u job hsid hnots hurl
        (by rintro (h | h); exact hu1 h; exact hu2 h) hjob]
      obtain ⟨h1, h2, h3, h4⟩ := ih
        { st with
          jobs := st.jobs ++ [job],
          jobs_new := st.jobs_new + 1,
          existing_source_ids := sid :: st.existing_source_ids,
          existing_resolved_urls := u :: st.existing_resolved_urls,
          seen_resolved_urls := u :: st.seen_resolved_urls } hrest
      refine ⟨?_, ?_, h3, h4⟩
      · rw [h1]
        simp [List.filterMap_cons, hjob]
      · rw [h2]
        simp
        omega

theorem execMain_c3_aux (aenv : AdapterEnv) (menv : MatchEnv) (now : Int)
    (db dbS : DB) (run : Run) (A B : ScraperSource) (jobsB : List JobData)
    (msg : String) (ms : MatchStats) (resA resB : ScrapeResult)
    (srA srB : SourceRun)
    (hfan : runScrapeTasks aenv now run.id db [A, B] = (dbS, [resA, resB]))
    (hsA : resA.success = false) (hsB : resB.success = true)
    (hdB : resB.jobs_data = jobsB) (hnB : resB.source_name = B.name)
    (hfB : resB.jobs_found = jobsB.length)
    (hdbSsr : dbS.source_runs = [srA, srB])
    (hidA : srA.id = 1) (hidB : srB.id = 2) (hrid : resB.source_run_id = 2)
    (hnameA : srA.source_name = A.name)
    (hstA : srA.status = SourceRunStatus.FAILED)
    (hemA : srA.error_message = some msg) (hcaA : srA.completed_at = some now)
    (hnameB : srB.source_name = B.name)
    (hstB : srB.status = SourceRunStatus.COMPLETED)
    (hfoundB : srB.jobs_found = jobsB.length) (hemB : srB.error_message = none)
    (hdbSjobs : dbS.jobs = db.jobs)
    (hfresh : FreshChain (sourceIdsFor db.jobs B.name) (resolvedUrls db.jobs)
      [] jobsB)
    (hm : menv = PyRes.ok ms) :
    (execMain aenv menv now db run [A, B]).outcome =
      PyRes.ok ⟨jobsB.length, jobsB.length, 0, 0, 1, 1⟩ ∧
    (execMain aenv menv now db run [A, B]).run.status = RunStatus.PARTIAL ∧
    (execMain aenv menv now db run [A, B]).db.jobs =
      db.jobs ++ jobsB.filterMap buildJob ∧
    (∃ sr ∈ (execMain aenv menv now db run [A, B]).db.source_runs,
      sr.source_name = A.name ∧ sr.status = SourceRunStatus.FAILED ∧
      sr.error_message = some msg ∧ sr.completed_at = some now) ∧
    (∃ sr ∈ (execMain aenv menv now db run [A, B]).db.source_runs,
      sr.source_name = B.name ∧ sr.status = SourceRunStatus.COMPLETED ∧
      sr.jobs_new = jobsB.length ∧ sr.jobs_found = jobsB.length ∧
      sr.error_message = none) := by
  subst hm
  have hacc0sr : (passAcc0 (commitRun dbS (add_log now run
      "All scraping complete. Saving jobs with cross-source deduplication..."
      "info")) (add_log now run
      "All scraping complete. Saving jobs with cross-source deduplication..."
      "info")).db.source_runs = [srA, srB] := hdbSsr
  have hacc0jobs : (passAcc0 (commitRun dbS (add_log now run
      "All scraping complete. Saving jobs with cross-source deduplication..."
      "info")) (add_log now run
      "All scraping complete. Saving jobs with cross-source deduplication..."
      "info")).db.jobs = db.jobs := hdbSjobs
  have hfreshT : FreshChain
      (sourceIdsFor (passAcc0 (commitRun dbS (add_log now run
        "All scraping complete. Saving jobs with cross-source deduplication..."
        "info")) (add_log now run
        "All scraping complete. Saving jobs with cross-source deduplication..."
        "info")).db.jobs resB.source_name)
      (resolvedUrls (passAcc0 (commitRun dbS (add_log now run
        "All scraping complete. Saving jobs with cross-source deduplication..."
        "info")) (add_log now run
        "All scraping complete. Saving jobs with cross-source deduplication..."
        "info")).db.jobs) [] jobsB := by
    rw [hacc0jobs, hnB]
    exact hfresh
  obtain ⟨hF1, hF2, hF3, hF4⟩ := foldl_fresh jobsB
    (initSaveSt (passAcc0 (commitRun dbS (add_log now run
      "All scraping complete. Saving jobs with cross-source deduplication..."
      "info")) (add_log now run
      "All scraping complete. Saving jobs with cross-source deduplication..."
      "info")) resB) hfreshT
  have hstjobs : (initSaveSt (passAcc0 (commitRun dbS (add_log now run
      "All scraping complete. Saving jobs with cross-source deduplication..."
      "info")) (add_log now run
      "All scraping complete. Saving jobs with cross-source deduplication..."
      "info")) resB).jobs = db.jobs := hdbSjobs
  rw [hstjobs] at hF1
  have hFnew : (jobsB.foldl saveOneJob (initSaveSt (passAcc0 (commitRun dbS
      (add_log now run
      "All scraping complete. Saving jobs with cross-source deduplication..."
      "info")) (add_log now run
      "All scraping complete. Saving jobs with cross-source deduplication..."
      "info")) resB)).jobs_new = jobsB.length := by
    have h : (jobsB.foldl saveOneJob (initSaveSt (passAcc0 (commitRun dbS
        (add_log now run
        "All scraping complete. Saving jobs with cross-source deduplication..."
        "info")) (add_log now run
        "All scraping complete. Saving jobs with cross-source deduplication..."
        "info")) resB)).jobs_new = 0 + jobsB.length := hF2
    rw [Nat.zero_add] at h
    exact h
  have hFdup : (jobsB.foldl saveOneJob (initSaveSt (passAcc0 (commitRun dbS
      (add_log now run
      "All scraping complete. Saving jobs with cross-source deduplication..."
      "info")) (add_log now run
      "All scraping complete. Saving jobs with cross-source deduplication..."
      "info")) resB)).jobs_duplicate = 0 := hF3
  have hFfail : (jobsB.foldl saveOneJob (initSaveSt (passAcc0 (commitRun dbS
      (add_log now run
      "All scraping complete. Saving jobs with cross-source deduplication..."
      "info")) (add_log now run
      "All scraping complete. Saving jobs with cross-source deduplication..."
      "info")) resB)).jobs_failed = 0 := hF4
  have hfind : ((passAcc0 (commitRun dbS (add_log now run
      "All scraping complete. Saving jobs with cross-source deduplication..."
      "info")) (add_log now run
      "All scraping complete. Saving jobs with cross-source deduplication..."
      "info")).db.source_runs.find?
        (fun sr => sr.id = resB.source_run_id)).isSome := by
    apply find_id_isSome_of_mem
    rw [hacc0sr, hrid]
    simp [hidB]
  obtain ⟨hp1, hp2, hp3, hp4, hp5, hp6, hp7, hp8⟩ :=
    processResult_fields now (passAcc0 (commitRun dbS (add_log now run
      "All scraping complete. Saving jobs with cross-source deduplication..."
      "info")) (add_log now run
      "All scraping complete. Saving jobs with cross-source deduplication..."
      "info")) resB hsB hfind
  rw [hdB] at hp1 hp4 hp5 hp6 hp8
  have hfold2 : List.foldl (processResult now) (passAcc0 (commitRun dbS
      (add_log now run
      "All scraping complete. Saving jobs with cross-source deduplication..."
      "info")) (add_log now run
      "All scraping complete. Saving jobs with cross-source deduplication..."
      "info")) [resA, resB] =
      processResult now (passAcc0 (commitRun dbS (add_log now run
      "All scraping complete. Saving jobs with cross-source deduplication..."
      "info")) (add_log now run
      "All scraping complete. Saving jobs with cross-source deduplication..."
      "info")) resB := by
    rw [List.foldl_cons, processResult_skip_failed now _ resA hsA,
      List.foldl_cons, List.foldl_nil]
  have hsv1 : (save_jobs_and_finalize_source_runs now (commitRun dbS
      (add_log now run
      "All scraping complete. Saving jobs with cross-source deduplication..."
      "info")) (add_log now run
      "All scraping complete. Saving jobs with cross-source deduplication..."
      "info") [resA, resB]).1 =
      (processResult now (passAcc0 (commitRun dbS (add_log now run
      "All scraping complete. Saving jobs with cross-source deduplication..."
      "info")) (add_log now run
      "All scraping complete. Saving jobs with cross-source deduplication..."
      "info")) resB).db := by
    rw [(save_eq_foldl now _ _ _).1, hfold2]
  have hsv2 := (save_eq_foldl now (commitRun dbS (add_log now run
      "All scraping complete. Saving jobs with cross-source deduplication..."
      "info")) (add_log now run
      "All scraping complete. Saving jobs with cross-source deduplication..."
      "info") [resA, resB]).2
  rw [hfold2] at hsv2
  have hstats : (save_jobs_and_finalize_source_runs now (commitRun dbS
      (add_log now run
      "All scraping complete. Saving jobs with cross-source deduplication..."
      "info")) (add_log now run
      "All scraping complete. Saving jobs with cross-source deduplication..."
      "info") [resA, resB]).2.2 =
      ⟨jobsB.length, jobsB.length, 0, 0⟩ := by
    rw [hsv2, hp4, hp5, hp6, hp7, hFnew, hFdup, hFfail, hfB]
    simp [passAcc0]
  have hSjobs : (save_jobs_and_finalize_source_runs now (commitRun dbS
      (add_log now run
      "All scraping complete. Saving jobs with cross-source deduplication..."
      "info")) (add_log now run
      "All scraping complete. Saving jobs with cross-source deduplication..."
      "info") [resA, resB]).1.jobs = db.jobs ++ jobsB.filterMap buildJob := by
    rw [hsv1, hp1, hF1]
  have hexA : ∃ sr ∈ (save_jobs_and_finalize_source_runs now (commitRun dbS
      (add_log now run
      "All scraping complete. Saving jobs with cross-source deduplication..."
      "info")) (add_log now run
      "All scraping complete. Saving jobs with cross-source deduplication..."
      "info") [resA, resB]).1.source_runs,
      sr.source_name = A.name ∧ sr.status = SourceRunStatus.FAILED ∧
      sr.error_message = some msg ∧ sr.completed_at = some now := by
    rw [hsv1, hp8, hacc0sr]
    refine ⟨_, List.mem_map_of_mem _ (List.mem_map_of_mem _
      (List.mem_cons_self srA [srB])), ?_⟩
    simp [hidA, hrid, hnameA, hstA, hemA, hcaA]
  have hexB : ∃ sr ∈ (save_jobs_and_finalize_source_runs now (commitRun dbS
      (add_log now run
      "All scraping complete. Saving jobs with cross-source deduplication..."
      "info")) (add_log now run
      "All scraping complete. Saving jobs with cross-source deduplication..."
      "info") [resA, resB]).1.source_runs,
      sr.source_name = B.name ∧ sr.status = SourceRunStatus.COMPLETED ∧
      sr.jobs_new = jobsB.length ∧ sr.jobs_found = jobsB.length ∧
      sr.error_message = none := by
    rw [hsv1, hp8, hacc0sr]
    refine ⟨_, List.mem_map_of_mem _ (List.mem_map_of_mem _
      (List.mem_cons_of_mem srA (List.mem_cons_self srB []))), ?_⟩
    simp [hidB, hrid, hnameB, hstB, hfoundB, hemB, add_source_log, hFnew]
  unfold execMain
  simp only [hfan]
  by_cases hnew : 0 < (save_jobs_and_finalize_source_runs now (commitRun dbS
      (add_log now run
      "All scraping complete. Saving jobs with cross-source deduplication..."
      "info")) (add_log now run
      "All scraping complete. Saving jobs with cross-source deduplication..."
      "info") [resA, resB]).2.2.new
  · simp only [hnew, if_true]
    refine ⟨?_, ?_, hSjobs, hexA, hexB⟩
    · exact congrArg PyRes.ok (by
        rw [hstats]
        simp [List.filter_cons, hsA, hsB])
    · show (if (([resA, resB].filter (fun r => !r.success)).length = 0)
          then RunStatus.COMPLETED else RunStatus.PARTIAL) = RunStatus.PARTIAL
      rw [show ([resA, resB].filter (fun r => !r.success)).length = 1 from by
        simp [List.filter_cons, hsA, hsB]]
      rfl
  · simp only [hnew, if_false]
    refine ⟨?_, ?_, hSjobs, hexA, hexB⟩
    · exact congrArg PyRes.ok (by
        rw [hstats]
        simp [List.filter_cons, hsA, hsB])
    · show (if (([resA, resB].filter (fun r => !r.success)).length = 0)
          then RunStatus.COMPLETED else RunStatus.PARTIAL) = RunStatus.PARTIAL
      rw [show ([resA, resB].filter (fun r => !r.success)).length = 1 from by
        simp [List.filter_cons, hsA, hsB]]
      rfl

theorem execMain_c3 (aenv : AdapterEnv) (menv : MatchEnv) (now : Int)
    (db : DB) (run : Run) (A B : ScraperSource) (jobsB : List JobData)
    (msg : String) (ms : MatchStats)
    (hsr : db.source_runs = [])
    (henvA : aenv A.name = PyRes.raised msg)
    (henvB : aenv B.name = PyRes.ok jobsB)
    (hfresh : FreshChain (sourceIdsFor db.jobs B.name) (resolvedUrls db.jobs)
      [] jobsB)
    (hm : menv = PyRes.ok ms) :
    (execMain aenv menv now db run [A, B]).outcome =
      PyRes.ok ⟨jobsB.length, jobsB.length, 0, 0, 1, 1⟩ ∧
    (execMain aenv menv now db run [A, B]).run.status = RunStatus.PARTIAL ∧
    (execMain aenv menv now db run [A, B]).db.jobs =
      db.jobs ++ jobsB.filterMap buildJob ∧
    (∃ sr ∈ (execMain aenv menv now db run [A, B]).db.source_runs,
      sr.source_name = A.name ∧ sr.status = SourceRunStatus.FAILED ∧
      sr.error_message = some msg ∧ sr.completed_at = some now) ∧
    (∃ sr ∈ (execMain aenv menv now db run [A, B]).db.source_runs,
      sr.source_name = B.name ∧ sr.status = SourceRunStatus.COMPLETED ∧
      sr.jobs_new = jobsB.length ∧ sr.jobs_found = jobsB.length ∧
      sr.error_message = none) := by
  have hnext1 : nextSourceRunId db = 1 := by
    simp [nextSourceRunId, hsr]
  have he1 := scrape_raised_eq aenv now db run.id A.name A.label msg henvA
  have hs1sr : (scrape_source_parallel aenv now db run.id
      A.name A.label).1.source_runs =
      [srFailRow now 1 run.id A.name A.label msg
        ((db.jobs.filter (fun j => j.source = A.name)).length)] := by
    rw [he1]
    simp [hsr, hnext1, srStartRow, srFailRow, add_source_log]
  have hs1jobs : (scrape_source_parallel aenv now db run.id
      A.name A.label).1.jobs = db.jobs := by
    rw [he1]
  have hnext2 : nextSourceRunId (scrape_source_parallel aenv now db run.id
      A.name A.label).1 = 2 := by
    simp [nextSourceRunId, hs1sr, srFailRow]
  have he2 := scrape_ok_eq aenv now
    (scrape_source_parallel aenv now db run.id A.name A.label).1 run.id
    B.name B.label jobsB henvB
  have hs2sr : (scrape_source_parallel aenv now
      (scrape_source_parallel aenv now db run.id A.name A.label).1 run.id
      B.name B.label).1.source_runs =
      [srFailRow now 1 run.id A.name A.label msg
        ((db.jobs.filter (fun j => j.source = A.name)).length),
       srOkRow now 2 run.id B.name B.label
        ((db.jobs.filter (fun j => j.source = B.name)).length)
        jobsB.length] := by
    rw [he2]
    simp [hs1sr, hs1jobs, hnext2, srStartRow, srFailRow, srOkRow,
      add_source_log]
  have hs2jobs : (scrape_source_parallel aenv now
      (scrape_source_parallel aenv now db run.id A.name A.label).1 run.id
      B.name B.label).1.jobs = db.jobs := by
    rw [he2]
    exact hs1jobs
  have hra : (scrape_source_parallel aenv now db run.id A.name A.label).2 =
      { source_name := A.name, source_label := A.label, source_run_id := 1,
        jobs_data := [], jobs_found := 0, error := some msg,
        success := false } := by
    rw [he1, hnext1]
  have hrb : (scrape_source_parallel aenv now
      (scrape_source_parallel aenv now db run.id A.name A.label).1 run.id
      B.name B.label).2 =
      { source_name := B.name, source_label := B.label, source_run_id := 2,
        jobs_data := jobsB, jobs_found := jobsB.length, error := none,
        success := true } := by
    rw [he2, hnext2]
  have hfan : runScrapeTasks aenv now run.id db [A, B] =
      ((scrape_source_parallel aenv now
        (scrape_source_parallel aenv now db run.id A.name A.label).1 run.id
        B.name B.label).1,
       [{ source_name := A.name, source_label := A.label, source_run_id := 1,
          jobs_data := [], jobs_found := 0, error := some msg,
          success := false },
        { source_name := B.name, source_label := B.label, source_run_id := 2,
          jobs_data := jobsB, jobs_found := jobsB.length, error := none,
          success := true }]) := by
    have h0 : runScrapeTasks aenv now run.id db [A, B] =
        ((scrape_source_parallel aenv now
          (scrape_source_parallel aenv now db run.id A.name A.label).1 run.id
          B.name B.label).1,
         [(scrape_source_parallel aenv now db run.id A.name A.label).2,
          (scrape_source_parallel aenv now
            (scrape_source_parallel aenv now db run.id A.name A.label).1
            run.id B.name B.label).2]) := rfl
    rw [h0, hra, hrb]
  exact execMain_c3_aux aenv menv now db
    (scrape_source_parallel aenv now
      (scrape_source_parallel aenv now db run.id A.name A.label).1 run.id
      B.name B.label).1 run A B jobsB msg ms
    { source_name := A.name, source_label := A.label, source_run_id := 1,
      jobs_data := [], jobs_found := 0, error := some msg, success := false }
    { source_name := B.name, source_label := B.label, source_run_id := 2,
      jobs_data := jobsB, jobs_found := jobsB.length, error := none,
      success := true }
    (srFailRow now 1 run.id A.name A.label msg
      ((db.jobs.filter (fun j => j.source = A.name)).length))
    (srOkRow now 2 run.id B.name B.label
      ((db.jobs.filter (fun j => j.source = B.name)).length) jobsB.length)
    hfan rfl rfl rfl rfl rfl hs2sr rfl rfl rfl rfl rfl rfl rfl rfl rfl rfl
    rfl hs2jobs hfresh hm

theorem freshChain_build_length (l : List JobData) :
    ∀ ids eru seen : List String, FreshChain ids eru seen l →
      (l.filterMap buildJob).length = l.length := by
  induction l with
  | nil => intro ids eru seen _; rfl
  | cons jd rest ih =>
    intro ids eru seen h
    obtain ⟨hb, sid, hsid, hnots, hrest⟩ := h
    obtain ⟨job, hjob⟩ := Option.isSome_iff_exists.mp hb
    rcases hurl : jd.resolved_url with _ | u
    · rw [hurl] at hrest
      simp [List.filterMap_cons, hjob, ih _ _ _ hrest]
    · rw [hurl] at hrest
      simp [List.filterMap_cons, hjob, ih _ _ _ hrest.2]

/-- C3.  Per-source failure isolation: an adapter exception is caught at
the scrape-task boundary — the task returns a failure-marked result
(never propagating), its SourceRun row is failed with the error message
and `completed_at` stamped, and the failure is logged to both the
SourceRun log and the parent Run row's log; and in a run over two
sources where A's adapter raises and B's returns a batch of fresh
postings, the pipeline completes normally (`outcome = ok`), the Run
ends `partial`, A's SourceRun is failed with the error, B's SourceRun
is completed with `jobs_new` equal to the batch size, and every posting
of the batch is persisted. -/
theorem c3_per_source_failure_isolation (env aenv : AdapterEnv)
    (menv : MatchEnv) (now : Int) (dbT db : DB) (run : Run)
    (names : Option (List String)) (rid : Nat) (name label e msg : String)
    (A B : ScraperSource) (jobsB : List JobData) (ms : MatchStats) (jl : Int) :
    (env name = PyRes.raised e →
      ((scrape_source_parallel env now dbT rid name label).2.success = false ∧
       (scrape_source_parallel env now dbT rid name label).2.error = some e ∧
       (scrape_source_parallel env now dbT rid name label).2.jobs_data = []) ∧
      (∃ sr ∈ (scrape_source_parallel env now dbT rid name label).1.source_runs,
        sr.id = (scrape_source_parallel env now dbT rid name
          label).2.source_run_id ∧
        sr.status = SourceRunStatus.FAILED ∧ sr.error_message = some e ∧
        sr.completed_at = some now ∧
        (⟨now, "error", "Failed: " ++ e⟩ : LogEntry) ∈ sr.logs) ∧
      (∀ r ∈ dbT.runs, r.id = rid →
        ∃ r2 ∈ (scrape_source_parallel env now dbT rid name label).1.runs,
          r2.id = rid ∧
          (⟨now, "error", "[" ++ label ++ "] Failed: " ++ e⟩ : LogEntry)
            ∈ r2.logs)) ∧
    (db.hasProfile = true →
     selectSources db names = [A, B] →
     db.source_runs = [] →
     aenv A.name = PyRes.raised msg →
     aenv B.name = PyRes.ok jobsB →
     FreshChain (sourceIdsFor db.jobs B.name) (resolvedUrls db.jobs) []
       jobsB →
     pyInt (get_setting db "scrape_job_limit" "0") = some jl →
     menv = PyRes.ok ms →
      (_execute_scraping aenv menv now db run names).outcome =
        PyRes.ok ⟨jobsB.length, jobsB.length, 0, 0, 1, 1⟩ ∧
      (_execute_scraping aenv menv now db run names).run.status =
        RunStatus.PARTIAL ∧
      (_execute_scraping aenv menv now db run names).db.jobs =
        db.jobs ++ jobsB.filterMap buildJob ∧
      (jobsB.filterMap buildJob).length = jobsB.length ∧
      (∃ sr ∈ (_execute_scraping aenv menv now db run names).db.source_runs,
        sr.source_name = A.name ∧ sr.status = SourceRunStatus.FAILED ∧
        sr.error_message = some msg ∧ sr.completed_at = some now) ∧
      (∃ sr ∈ (_execute_scraping aenv menv now db run names).db.source_runs,
        sr.source_name = B.name ∧ sr.status = SourceRunStatus.COMPLETED ∧
        sr.jobs_new = jobsB.length ∧ sr.jobs_found = jobsB.length ∧
        sr.error_message = none)) := by
  constructor
  · intro henv
    have he := scrape_raised_eq env now dbT rid name label e henv
    refine ⟨⟨?_, ?_, ?_⟩, ?_, ?_⟩
    · rw [he]
    · rw [he]
    · rw [he]
    · rw [he]
      refine ⟨_, List.mem_map_of_mem _ (List.mem_map_of_mem _
        (List.mem_append_right _ (List.mem_cons_self _ _))), ?_⟩
      simp [srStartRow, add_source_log]
    · intro r hr hrid
      rw [he]
      refine ⟨_, List.mem_map_of_mem _ (List.mem_map_of_mem _ hr), ?_⟩
      simp [hrid, add_log]
  · intro hp hsel hsr0 henvA henvB hfresh hjl hm
    have hlen := freshChain_build_length jobsB _ _ _ hfresh
    unfold _execute_scraping
    rw [if_pos hp, hsel]
    rw [if_neg (show ¬(([A, B] : List ScraperSource).isEmpty = true) from by
      simp)]
    have hsame : pyInt (get_setting (commitRun db (add_log now run
        ("Starting parallel scraping from "
          ++ toString ([A, B] : List ScraperSource).length ++ " source(s): "
          ++ String.intercalate ", "
            (([A, B] : List ScraperSource).map (fun s => s.label))) "info"))
        "scrape_job_limit" "0") = some jl := hjl
    simp only [hsame]
    have h := execMain_c3 aenv menv now
      (commitRun db (add_log now run
        ("Starting parallel scraping from "
          ++ toString ([A, B] : List ScraperSource).length ++ " source(s): "
          ++ String.intercalate ", "
            (([A, B] : List ScraperSource).map (fun s => s.label))) "info"))
      (add_log now run
        ("Starting parallel scraping from "
          ++ toString ([A, B] : List ScraperSource).length ++ " source(s): "
          ++ String.intercalate ", "
            (([A, B] : List ScraperSource).map (fun s => s.label))) "info")
      A B jobsB msg ms hsr0 henvA henvB hfresh hm
    exact ⟨h.1, h.2.1, h.2.2.1, hlen, h.2.2.2.1, h.2.2.2.2⟩

/-- Witness for C3: source `alpha` raises "boom" while sibling `beta`
returns one fresh posting; the failing task returns a failure-marked
result with its SourceRun failed and logged, the run ends `partial`,
and the sibling's posting is persisted with its SourceRun completed. -/
theorem c3_per_source_failure_isolation_witness :
    (scrape_source_parallel c3aenv 60 c3db 1 "alpha" "Alpha").2.success
      = false ∧
    (scrape_source_parallel c3aenv 60 c3db 1 "alpha" "Alpha").2.error =
      some "boom" ∧
    (∃ sr ∈ (scrape_source_parallel c3aenv 60 c3db 1 "alpha"
        "Alpha").1.source_runs,
      sr.id = (scrape_source_parallel c3aenv 60 c3db 1 "alpha"
        "Alpha").2.source_run_id ∧
      sr.status = SourceRunStatus.FAILED ∧ sr.error_message = some "boom" ∧
      sr.completed_at = some 60 ∧
      (⟨60, "error", "Failed: " ++ "boom"⟩ : LogEntry) ∈ sr.logs) ∧
    (_execute_scraping c3aenv noopMatcher 60 c3db exRun1 none).outcome =
      PyRes.ok ⟨1, 1, 0, 0, 1, 1⟩ ∧
    (_execute_scraping c3aenv noopMatcher 60 c3db exRun1 none).run.status =
      RunStatus.PARTIAL ∧
    (_execute_scraping c3aenv noopMatcher 60 c3db exRun1 none).db.jobs =
      [c3jN] ∧
    (∃ sr ∈ (_execute_scraping c3aenv noopMatcher 60 c3db exRun1
        none).db.source_runs,
      sr.source_name = "beta" ∧ sr.status = SourceRunStatus.COMPLETED ∧
      sr.jobs_new = 1 ∧ sr.jobs_found = 1 ∧ sr.error_message = none) := by
  have h := c3_per_source_failure_isolation c3aenv c3aenv noopMatcher 60
    c3db c3db exRun1 none 1 "alpha" "Alpha" "boom" "boom" c3A c3B [c3p]
    ⟨0, 0, 0, 0⟩ 0
  have hfc : FreshChain (sourceIdsFor c3db.jobs c3B.name)
      (resolvedUrls c3db.jobs) [] [c3p] :=
    ⟨by decide, "n1", by decide, by decide, ⟨by decide, by decide⟩, trivial⟩
  have h1 := h.1 (by decide)
  have h2 := h.2 rfl (by decide) rfl (by decide) (by decide) hfc (by decide)
    rfl
  exact ⟨h1.1.1, h1.1.2.1, h1.2.1, h2.1, h2.2.1, h2.2.2.1,
    h2.2.2.2.2.2⟩

end Zapply
